import Mathlib

/-!
Shallow embedding of the `celes` country registry (src/lib.rs, src/tables.rs):
the `Country` record, its alias lookup tables, the seven resolver functions
backed by `phf` maps, equality/ordering/serde instances, and the full 250-entry
registry returned by `Country::get_countries()`.  All data below is transcribed
verbatim from the source; the resolvers model `phf::Map::get` as association-list
lookup (the maps' keys are unique, so the two agree), and `str::to_lowercase` /
`make_ascii_lowercase` are modelled by `rustLower`, which agrees with them on
every character occurring in the crate's data and queries (ASCII and Latin-1).
-/

set_option maxRecDepth 20000
set_option maxHeartbeats 4000000

namespace Celes

/-- Lowercasing as performed by Rust's `to_lowercase` / `make_ascii_lowercase`
on the characters occurring in this crate's data: ASCII `A`-`Z` and Latin-1
uppercase letters map to lowercase, every other character is unchanged. -/
def rustLowerChar (c : Char) : Char :=
  if 'A' ≤ c ∧ c ≤ 'Z' then Char.ofNat (c.toNat + 32)
  else if 0xC0 ≤ c.toNat ∧ c.toNat ≤ 0xDE ∧ c.toNat ≠ 0xD7 then Char.ofNat (c.toNat + 32)
  else c

/-- Rust `str::to_lowercase`, restricted as described at `rustLowerChar`. -/
def rustLower (s : String) : String := ⟨s.data.map rustLowerChar⟩

deriving instance DecidableEq for Except

/-- Lexicographic comparison of char lists.  On UTF-8 strings codepoint order
coincides with byte order, so this is Rust's `Ord` for `str`. -/
def charsCmp : List Char → List Char → Ordering
  | [], [] => .eq
  | [], _ :: _ => .lt
  | _ :: _, [] => .gt
  | a :: as, b :: bs => if a < b then .lt else if b < a then .gt else charsCmp as bs

/-- Rust's `str::cmp` (byte-lexicographic). -/
def rustStrCmp (a b : String) : Ordering := charsCmp a.data b.data

/-- An alias lookup table generated by the `lookup!` macro (tables.rs):
`entries` is the stored array of alias strings (`self.0`), `lowered` is the list
of lowered match patterns generated for `LookupTable::contains`.  The
`EmptyLookupTable` is the table with both lists empty. -/
structure CountryTable where
  entries : List String
  lowered : List String
deriving DecidableEq

/-- `LookupTable::contains` (tables.rs lines 36-48): lowercase the query and
match it against the generated lowered patterns. -/
def CountryTable.contains (t : CountryTable) (s : String) : Bool :=
  t.lowered.contains (rustLower s)

/-- `LookupTable::len`: the number of stored aliases. -/
def CountryTable.len (t : CountryTable) : Nat := t.entries.length

/-- The `Country` struct (lib.rs lines 134-148). -/
structure Country where
  code : String
  value : Nat
  alpha2 : String
  alpha3 : String
  long_name : String
  aliases : CountryTable
deriving DecidableEq

/-- `PartialEq::eq` for `Country` (lib.rs lines 180-196), transcribed
field-for-field: note that the source compares `alpha2`, `alpha3` and
`long_name` of `self` against `self` (not against `other`). -/
def countryEq (a other : Country) : Bool :=
  let one := a.code == other.code
  let two := a.value == other.value
  let thr := a.alpha2 == a.alpha2
  let fur := a.alpha3 == a.alpha3
  let fve := a.long_name == a.long_name
  let six := a.aliases.len == other.aliases.len
  let svn := (a.aliases.entries.zip other.aliases.entries).all fun p => p.1 == p.2
  one && two && thr && fur && fve && six && svn

/-- `Ord::cmp` for `Country` (lib.rs lines 166-170): compare `long_name`. -/
def countryCmp (a other : Country) : Ordering :=
  rustStrCmp a.long_name other.long_name

/-- Models `map.get(key).copied().ok_or(err)` on a `phf::Map`: the maps below
have pairwise distinct keys, so ordered association lookup agrees with the hash
lookup performed by `phf`. -/
def phfGet {α : Type} [BEq α] (m : List (α × Country)) (k : α) (err : String) :
    Except String Country :=
  match m.lookup k with
  | some c => .ok c
  | none => .error err

/-- `Country::afghanistan()` (lib.rs). -/
def Country.afghanistan : Country :=
  ⟨"004", 4, "AF", "AFG", "Afghanistan",
   ⟨[], []⟩⟩

/-- `Country::aland_islands()` (lib.rs). -/
def Country.aland_islands : Country :=
  ⟨"248", 248, "AX", "ALA", "Aland Islands",
   ⟨[], []⟩⟩

/-- `Country::albania()` (lib.rs). -/
def Country.albania : Country :=
  ⟨"008", 8, "AL", "ALB", "Albania",
   ⟨[], []⟩⟩

/-- `Country::algeria()` (lib.rs). -/
def Country.algeria : Country :=
  ⟨"012", 12, "DZ", "DZA", "Algeria",
   ⟨[], []⟩⟩

/-- `Country::american_samoa()` (lib.rs). -/
def Country.american_samoa : Country :=
  ⟨"016", 16, "AS", "ASM", "American Samoa",
   ⟨["Samoa"], ["samoa"]⟩⟩

/-- `Country::andorra()` (lib.rs). -/
def Country.andorra : Country :=
  ⟨"020", 20, "AD", "AND", "Andorra",
   ⟨[], []⟩⟩

/-- `Country::angola()` (lib.rs). -/
def Country.angola : Country :=
  ⟨"024", 24, "AO", "AGO", "Angola",
   ⟨[], []⟩⟩

/-- `Country::anguilla()` (lib.rs). -/
def Country.anguilla : Country :=
  ⟨"660", 660, "AI", "AIA", "Anguilla",
   ⟨[], []⟩⟩

/-- `Country::antarctica()` (lib.rs). -/
def Country.antarctica : Country :=
  ⟨"010", 10, "AQ", "ATA", "Antarctica",
   ⟨[], []⟩⟩

/-- `Country::antigua_and_barbuda()` (lib.rs). -/
def Country.antigua_and_barbuda : Country :=
  ⟨"028", 28, "AG", "ATG", "Antigua And Barbuda",
   ⟨[], []⟩⟩

/-- `Country::argentina()` (lib.rs). -/
def Country.argentina : Country :=
  ⟨"032", 32, "AR", "ARG", "Argentina",
   ⟨[], []⟩⟩

/-- `Country::armenia()` (lib.rs). -/
def Country.armenia : Country :=
  ⟨"051", 51, "AM", "ARM", "Armenia",
   ⟨[], []⟩⟩

/-- `Country::aruba()` (lib.rs). -/
def Country.aruba : Country :=
  ⟨"533", 533, "AW", "ABW", "Aruba",
   ⟨[], []⟩⟩

/-- `Country::ascension_and_tristan_da_cunha_saint_helena()` (lib.rs). -/
def Country.ascension_and_tristan_da_cunha_saint_helena : Country :=
  ⟨"654", 654, "SH", "SHN", "Ascension And Tristan Da Cunha Saint Helena",
   ⟨["StHelena", "SaintHelena"], ["sthelena", "sainthelena"]⟩⟩

/-- `Country::australia()` (lib.rs). -/
def Country.australia : Country :=
  ⟨"036", 36, "AU", "AUS", "Australia",
   ⟨[], []⟩⟩

/-- `Country::austria()` (lib.rs). -/
def Country.austria : Country :=
  ⟨"040", 40, "AT", "AUT", "Austria",
   ⟨[], []⟩⟩

/-- `Country::azerbaijan()` (lib.rs). -/
def Country.azerbaijan : Country :=
  ⟨"031", 31, "AZ", "AZE", "Azerbaijan",
   ⟨[], []⟩⟩

/-- `Country::bahrain()` (lib.rs). -/
def Country.bahrain : Country :=
  ⟨"048", 48, "BH", "BHR", "Bahrain",
   ⟨[], []⟩⟩

/-- `Country::bangladesh()` (lib.rs). -/
def Country.bangladesh : Country :=
  ⟨"050", 50, "BD", "BGD", "Bangladesh",
   ⟨[], []⟩⟩

/-- `Country::barbados()` (lib.rs). -/
def Country.barbados : Country :=
  ⟨"052", 52, "BB", "BRB", "Barbados",
   ⟨[], []⟩⟩

/-- `Country::belarus()` (lib.rs). -/
def Country.belarus : Country :=
  ⟨"112", 112, "BY", "BLR", "Belarus",
   ⟨[], []⟩⟩

/-- `Country::belgium()` (lib.rs). -/
def Country.belgium : Country :=
  ⟨"056", 56, "BE", "BEL", "Belgium",
   ⟨[], []⟩⟩

/-- `Country::belize()` (lib.rs). -/
def Country.belize : Country :=
  ⟨"084", 84, "BZ", "BLZ", "Belize",
   ⟨[], []⟩⟩

/-- `Country::benin()` (lib.rs). -/
def Country.benin : Country :=
  ⟨"204", 204, "BJ", "BEN", "Benin",
   ⟨[], []⟩⟩

/-- `Country::bermuda()` (lib.rs). -/
def Country.bermuda : Country :=
  ⟨"060", 60, "BM", "BMU", "Bermuda",
   ⟨[], []⟩⟩

/-- `Country::bhutan()` (lib.rs). -/
def Country.bhutan : Country :=
  ⟨"064", 64, "BT", "BTN", "Bhutan",
   ⟨[], []⟩⟩

/-- `Country::bolivarian_republic_of_venezuela()` (lib.rs). -/
def Country.bolivarian_republic_of_venezuela : Country :=
  ⟨"862", 862, "VE", "VEN", "Bolivarian Republic Of Venezuela",
   ⟨["Venezuela"], ["venezuela"]⟩⟩

/-- `Country::bolivia()` (lib.rs). -/
def Country.bolivia : Country :=
  ⟨"068", 68, "BO", "BOL", "Bolivia",
   ⟨[], []⟩⟩

/-- `Country::bonaire()` (lib.rs). -/
def Country.bonaire : Country :=
  ⟨"535", 535, "BQ", "BES", "Bonaire",
   ⟨[], []⟩⟩

/-- `Country::bosnia_and_herzegovina()` (lib.rs). -/
def Country.bosnia_and_herzegovina : Country :=
  ⟨"070", 70, "BA", "BIH", "Bosnia And Herzegovina",
   ⟨["Bosnia", "Herzegovina"], ["bosnia", "herzegovina"]⟩⟩

/-- `Country::botswana()` (lib.rs). -/
def Country.botswana : Country :=
  ⟨"072", 72, "BW", "BWA", "Botswana",
   ⟨[], []⟩⟩

/-- `Country::bouvet_island()` (lib.rs). -/
def Country.bouvet_island : Country :=
  ⟨"074", 74, "BV", "BVT", "Bouvet Island",
   ⟨[], []⟩⟩

/-- `Country::brazil()` (lib.rs). -/
def Country.brazil : Country :=
  ⟨"076", 76, "BR", "BRA", "Brazil",
   ⟨[], []⟩⟩

/-- `Country::british_indian_ocean_territory()` (lib.rs). -/
def Country.british_indian_ocean_territory : Country :=
  ⟨"086", 86, "IO", "IOT", "British Indian Ocean Territory",
   ⟨[], []⟩⟩

/-- `Country::british_virgin_islands()` (lib.rs). -/
def Country.british_virgin_islands : Country :=
  ⟨"092", 92, "VG", "VGB", "British Virgin Islands",
   ⟨[], []⟩⟩

/-- `Country::brunei_darussalam()` (lib.rs). -/
def Country.brunei_darussalam : Country :=
  ⟨"096", 96, "BN", "BRN", "Brunei Darussalam",
   ⟨["Brunei"], ["brunei"]⟩⟩

/-- `Country::bulgaria()` (lib.rs). -/
def Country.bulgaria : Country :=
  ⟨"100", 100, "BG", "BGR", "Bulgaria",
   ⟨[], []⟩⟩

/-- `Country::burkina_faso()` (lib.rs). -/
def Country.burkina_faso : Country :=
  ⟨"854", 854, "BF", "BFA", "Burkina Faso",
   ⟨["Burkina"], ["burkina"]⟩⟩

/-- `Country::burundi()` (lib.rs). -/
def Country.burundi : Country :=
  ⟨"108", 108, "BI", "BDI", "Burundi",
   ⟨[], []⟩⟩

/-- `Country::cabo_verde()` (lib.rs). -/
def Country.cabo_verde : Country :=
  ⟨"132", 132, "CV", "CPV", "Cabo Verde",
   ⟨[], []⟩⟩

/-- `Country::cambodia()` (lib.rs). -/
def Country.cambodia : Country :=
  ⟨"116", 116, "KH", "KHM", "Cambodia",
   ⟨[], []⟩⟩

/-- `Country::cameroon()` (lib.rs). -/
def Country.cameroon : Country :=
  ⟨"120", 120, "CM", "CMR", "Cameroon",
   ⟨[], []⟩⟩

/-- `Country::canada()` (lib.rs). -/
def Country.canada : Country :=
  ⟨"124", 124, "CA", "CAN", "Canada",
   ⟨[], []⟩⟩

/-- `Country::chad()` (lib.rs). -/
def Country.chad : Country :=
  ⟨"148", 148, "TD", "TCD", "Chad",
   ⟨[], []⟩⟩

/-- `Country::chile()` (lib.rs). -/
def Country.chile : Country :=
  ⟨"152", 152, "CL", "CHL", "Chile",
   ⟨[], []⟩⟩

/-- `Country::china()` (lib.rs). -/
def Country.china : Country :=
  ⟨"156", 156, "CN", "CHN", "China",
   ⟨[], []⟩⟩

/-- `Country::christmas_island()` (lib.rs). -/
def Country.christmas_island : Country :=
  ⟨"162", 162, "CX", "CXR", "Christmas Island",
   ⟨[], []⟩⟩

/-- `Country::colombia()` (lib.rs). -/
def Country.colombia : Country :=
  ⟨"170", 170, "CO", "COL", "Colombia",
   ⟨[], []⟩⟩

/-- `Country::costa_rica()` (lib.rs). -/
def Country.costa_rica : Country :=
  ⟨"188", 188, "CR", "CRI", "Costa Rica",
   ⟨[], []⟩⟩

/-- `Country::coted_ivoire()` (lib.rs). -/
def Country.coted_ivoire : Country :=
  ⟨"384", 384, "CI", "CIV", "Coted Ivoire",
   ⟨[], []⟩⟩

/-- `Country::croatia()` (lib.rs). -/
def Country.croatia : Country :=
  ⟨"191", 191, "HR", "HRV", "Croatia",
   ⟨[], []⟩⟩

/-- `Country::cuba()` (lib.rs). -/
def Country.cuba : Country :=
  ⟨"192", 192, "CU", "CUB", "Cuba",
   ⟨[], []⟩⟩

/-- `Country::curacao()` (lib.rs). -/
def Country.curacao : Country :=
  ⟨"531", 531, "CW", "CUW", "Curacao",
   ⟨[], []⟩⟩

/-- `Country::cyprus()` (lib.rs). -/
def Country.cyprus : Country :=
  ⟨"196", 196, "CY", "CYP", "Cyprus",
   ⟨[], []⟩⟩

/-- `Country::czechia()` (lib.rs). -/
def Country.czechia : Country :=
  ⟨"203", 203, "CZ", "CZE", "Czechia",
   ⟨["CzechRepublic"], ["czechrepublic"]⟩⟩

/-- `Country::denmark()` (lib.rs). -/
def Country.denmark : Country :=
  ⟨"208", 208, "DK", "DNK", "Denmark",
   ⟨[], []⟩⟩

/-- `Country::djibouti()` (lib.rs). -/
def Country.djibouti : Country :=
  ⟨"262", 262, "DJ", "DJI", "Djibouti",
   ⟨[], []⟩⟩

/-- `Country::dominica()` (lib.rs). -/
def Country.dominica : Country :=
  ⟨"212", 212, "DM", "DMA", "Dominica",
   ⟨[], []⟩⟩

/-- `Country::dutch_part_sint_maarten()` (lib.rs). -/
def Country.dutch_part_sint_maarten : Country :=
  ⟨"534", 534, "SX", "SXM", "Dutch Part Sint Maarten",
   ⟨["StMaarten", "SaintMaarten"], ["stmaarten", "saintmaarten"]⟩⟩

/-- `Country::ecuador()` (lib.rs). -/
def Country.ecuador : Country :=
  ⟨"218", 218, "EC", "ECU", "Ecuador",
   ⟨[], []⟩⟩

/-- `Country::egypt()` (lib.rs). -/
def Country.egypt : Country :=
  ⟨"818", 818, "EG", "EGY", "Egypt",
   ⟨[], []⟩⟩

/-- `Country::el_salvador()` (lib.rs). -/
def Country.el_salvador : Country :=
  ⟨"222", 222, "SV", "SLV", "El Salvador",
   ⟨[], []⟩⟩

/-- `Country::equatorial_guinea()` (lib.rs). -/
def Country.equatorial_guinea : Country :=
  ⟨"226", 226, "GQ", "GNQ", "Equatorial Guinea",
   ⟨[], []⟩⟩

/-- `Country::eritrea()` (lib.rs). -/
def Country.eritrea : Country :=
  ⟨"232", 232, "ER", "ERI", "Eritrea",
   ⟨[], []⟩⟩

/-- `Country::estonia()` (lib.rs). -/
def Country.estonia : Country :=
  ⟨"233", 233, "EE", "EST", "Estonia",
   ⟨[], []⟩⟩

/-- `Country::eswatini()` (lib.rs). -/
def Country.eswatini : Country :=
  ⟨"748", 748, "SZ", "SWZ", "Eswatini",
   ⟨[], []⟩⟩

/-- `Country::ethiopia()` (lib.rs). -/
def Country.ethiopia : Country :=
  ⟨"231", 231, "ET", "ETH", "Ethiopia",
   ⟨[], []⟩⟩

/-- `Country::federated_states_of_micronesia()` (lib.rs). -/
def Country.federated_states_of_micronesia : Country :=
  ⟨"583", 583, "FM", "FSM", "Federated States Of Micronesia",
   ⟨["Micronesia"], ["micronesia"]⟩⟩

/-- `Country::fiji()` (lib.rs). -/
def Country.fiji : Country :=
  ⟨"242", 242, "FJ", "FJI", "Fiji",
   ⟨[], []⟩⟩

/-- `Country::finland()` (lib.rs). -/
def Country.finland : Country :=
  ⟨"246", 246, "FI", "FIN", "Finland",
   ⟨[], []⟩⟩

/-- `Country::france()` (lib.rs). -/
def Country.france : Country :=
  ⟨"250", 250, "FR", "FRA", "France",
   ⟨[], []⟩⟩

/-- `Country::french_guiana()` (lib.rs). -/
def Country.french_guiana : Country :=
  ⟨"254", 254, "GF", "GUF", "French Guiana",
   ⟨[], []⟩⟩

/-- `Country::french_part_saint_martin()` (lib.rs). -/
def Country.french_part_saint_martin : Country :=
  ⟨"663", 663, "MF", "MAF", "French Part Saint Martin",
   ⟨["StMartin", "SaintMartin"], ["stmartin", "saintmartin"]⟩⟩

/-- `Country::french_polynesia()` (lib.rs). -/
def Country.french_polynesia : Country :=
  ⟨"258", 258, "PF", "PYF", "French Polynesia",
   ⟨[], []⟩⟩

/-- `Country::gabon()` (lib.rs). -/
def Country.gabon : Country :=
  ⟨"266", 266, "GA", "GAB", "Gabon",
   ⟨[], []⟩⟩

/-- `Country::georgia()` (lib.rs). -/
def Country.georgia : Country :=
  ⟨"268", 268, "GE", "GEO", "Georgia",
   ⟨[], []⟩⟩

/-- `Country::germany()` (lib.rs). -/
def Country.germany : Country :=
  ⟨"276", 276, "DE", "DEU", "Germany",
   ⟨[], []⟩⟩

/-- `Country::ghana()` (lib.rs). -/
def Country.ghana : Country :=
  ⟨"288", 288, "GH", "GHA", "Ghana",
   ⟨[], []⟩⟩

/-- `Country::gibraltar()` (lib.rs). -/
def Country.gibraltar : Country :=
  ⟨"292", 292, "GI", "GIB", "Gibraltar",
   ⟨[], []⟩⟩

/-- `Country::greece()` (lib.rs). -/
def Country.greece : Country :=
  ⟨"300", 300, "GR", "GRC", "Greece",
   ⟨[], []⟩⟩

/-- `Country::greenland()` (lib.rs). -/
def Country.greenland : Country :=
  ⟨"304", 304, "GL", "GRL", "Greenland",
   ⟨[], []⟩⟩

/-- `Country::grenada()` (lib.rs). -/
def Country.grenada : Country :=
  ⟨"308", 308, "GD", "GRD", "Grenada",
   ⟨[], []⟩⟩

/-- `Country::guadeloupe()` (lib.rs). -/
def Country.guadeloupe : Country :=
  ⟨"312", 312, "GP", "GLP", "Guadeloupe",
   ⟨[], []⟩⟩

/-- `Country::guam()` (lib.rs). -/
def Country.guam : Country :=
  ⟨"316", 316, "GU", "GUM", "Guam",
   ⟨[], []⟩⟩

/-- `Country::guatemala()` (lib.rs). -/
def Country.guatemala : Country :=
  ⟨"320", 320, "GT", "GTM", "Guatemala",
   ⟨[], []⟩⟩

/-- `Country::guernsey()` (lib.rs). -/
def Country.guernsey : Country :=
  ⟨"831", 831, "GG", "GGY", "Guernsey",
   ⟨[], []⟩⟩

/-- `Country::guinea()` (lib.rs). -/
def Country.guinea : Country :=
  ⟨"324", 324, "GN", "GIN", "Guinea",
   ⟨[], []⟩⟩

/-- `Country::guinea_bissau()` (lib.rs). -/
def Country.guinea_bissau : Country :=
  ⟨"624", 624, "GW", "GNB", "Guinea Bissau",
   ⟨[], []⟩⟩

/-- `Country::guyana()` (lib.rs). -/
def Country.guyana : Country :=
  ⟨"328", 328, "GY", "GUY", "Guyana",
   ⟨[], []⟩⟩

/-- `Country::haiti()` (lib.rs). -/
def Country.haiti : Country :=
  ⟨"332", 332, "HT", "HTI", "Haiti",
   ⟨[], []⟩⟩

/-- `Country::heard_island_and_mc_donald_islands()` (lib.rs). -/
def Country.heard_island_and_mc_donald_islands : Country :=
  ⟨"334", 334, "HM", "HMD", "Heard Island And Mc Donald Islands",
   ⟨["HeardIsland", "McDonaldIslands"], ["heardisland", "mcDonaldislands"]⟩⟩

/-- `Country::honduras()` (lib.rs). -/
def Country.honduras : Country :=
  ⟨"340", 340, "HN", "HND", "Honduras",
   ⟨[], []⟩⟩

/-- `Country::hong_kong()` (lib.rs). -/
def Country.hong_kong : Country :=
  ⟨"344", 344, "HK", "HKG", "Hong Kong",
   ⟨[], []⟩⟩

/-- `Country::hungary()` (lib.rs). -/
def Country.hungary : Country :=
  ⟨"348", 348, "HU", "HUN", "Hungary",
   ⟨[], []⟩⟩

/-- `Country::iceland()` (lib.rs). -/
def Country.iceland : Country :=
  ⟨"352", 352, "IS", "ISL", "Iceland",
   ⟨[], []⟩⟩

/-- `Country::india()` (lib.rs). -/
def Country.india : Country :=
  ⟨"356", 356, "IN", "IND", "India",
   ⟨[], []⟩⟩

/-- `Country::indonesia()` (lib.rs). -/
def Country.indonesia : Country :=
  ⟨"360", 360, "ID", "IDN", "Indonesia",
   ⟨[], []⟩⟩

/-- `Country::iraq()` (lib.rs). -/
def Country.iraq : Country :=
  ⟨"368", 368, "IQ", "IRQ", "Iraq",
   ⟨[], []⟩⟩

/-- `Country::ireland()` (lib.rs). -/
def Country.ireland : Country :=
  ⟨"372", 372, "IE", "IRL", "Ireland",
   ⟨[], []⟩⟩

/-- `Country::islamic_republic_of_iran()` (lib.rs). -/
def Country.islamic_republic_of_iran : Country :=
  ⟨"364", 364, "IR", "IRN", "Islamic Republic Of Iran",
   ⟨["Iran"], ["iran"]⟩⟩

/-- `Country::isle_of_man()` (lib.rs). -/
def Country.isle_of_man : Country :=
  ⟨"833", 833, "IM", "IMN", "Isle Of Man",
   ⟨[], []⟩⟩

/-- `Country::israel()` (lib.rs). -/
def Country.israel : Country :=
  ⟨"376", 376, "IL", "ISR", "Israel",
   ⟨[], []⟩⟩

/-- `Country::italy()` (lib.rs). -/
def Country.italy : Country :=
  ⟨"380", 380, "IT", "ITA", "Italy",
   ⟨[], []⟩⟩

/-- `Country::jamaica()` (lib.rs). -/
def Country.jamaica : Country :=
  ⟨"388", 388, "JM", "JAM", "Jamaica",
   ⟨[], []⟩⟩

/-- `Country::japan()` (lib.rs). -/
def Country.japan : Country :=
  ⟨"392", 392, "JP", "JPN", "Japan",
   ⟨[], []⟩⟩

/-- `Country::jersey()` (lib.rs). -/
def Country.jersey : Country :=
  ⟨"832", 832, "JE", "JEY", "Jersey",
   ⟨[], []⟩⟩

/-- `Country::jordan()` (lib.rs). -/
def Country.jordan : Country :=
  ⟨"400", 400, "JO", "JOR", "Jordan",
   ⟨[], []⟩⟩

/-- `Country::kazakhstan()` (lib.rs). -/
def Country.kazakhstan : Country :=
  ⟨"398", 398, "KZ", "KAZ", "Kazakhstan",
   ⟨[], []⟩⟩

/-- `Country::kenya()` (lib.rs). -/
def Country.kenya : Country :=
  ⟨"404", 404, "KE", "KEN", "Kenya",
   ⟨[], []⟩⟩

/-- `Country::kiribati()` (lib.rs). -/
def Country.kiribati : Country :=
  ⟨"296", 296, "KI", "KIR", "Kiribati",
   ⟨[], []⟩⟩

/-- `Country::kosovo()` (lib.rs). -/
def Country.kosovo : Country :=
  ⟨"383", 383, "XK", "XKX", "Kosovo",
   ⟨[], []⟩⟩

/-- `Country::kuwait()` (lib.rs). -/
def Country.kuwait : Country :=
  ⟨"414", 414, "KW", "KWT", "Kuwait",
   ⟨[], []⟩⟩

/-- `Country::kyrgyzstan()` (lib.rs). -/
def Country.kyrgyzstan : Country :=
  ⟨"417", 417, "KG", "KGZ", "Kyrgyzstan",
   ⟨[], []⟩⟩

/-- `Country::latvia()` (lib.rs). -/
def Country.latvia : Country :=
  ⟨"428", 428, "LV", "LVA", "Latvia",
   ⟨[], []⟩⟩

/-- `Country::lebanon()` (lib.rs). -/
def Country.lebanon : Country :=
  ⟨"422", 422, "LB", "LBN", "Lebanon",
   ⟨[], []⟩⟩

/-- `Country::lesotho()` (lib.rs). -/
def Country.lesotho : Country :=
  ⟨"426", 426, "LS", "LSO", "Lesotho",
   ⟨[], []⟩⟩

/-- `Country::liberia()` (lib.rs). -/
def Country.liberia : Country :=
  ⟨"430", 430, "LR", "LBR", "Liberia",
   ⟨[], []⟩⟩

/-- `Country::libya()` (lib.rs). -/
def Country.libya : Country :=
  ⟨"434", 434, "LY", "LBY", "Libya",
   ⟨[], []⟩⟩

/-- `Country::liechtenstein()` (lib.rs). -/
def Country.liechtenstein : Country :=
  ⟨"438", 438, "LI", "LIE", "Liechtenstein",
   ⟨[], []⟩⟩

/-- `Country::lithuania()` (lib.rs). -/
def Country.lithuania : Country :=
  ⟨"440", 440, "LT", "LTU", "Lithuania",
   ⟨[], []⟩⟩

/-- `Country::luxembourg()` (lib.rs). -/
def Country.luxembourg : Country :=
  ⟨"442", 442, "LU", "LUX", "Luxembourg",
   ⟨[], []⟩⟩

/-- `Country::macao()` (lib.rs). -/
def Country.macao : Country :=
  ⟨"446", 446, "MO", "MAC", "Macao",
   ⟨[], []⟩⟩

/-- `Country::madagascar()` (lib.rs). -/
def Country.madagascar : Country :=
  ⟨"450", 450, "MG", "MDG", "Madagascar",
   ⟨[], []⟩⟩

/-- `Country::malawi()` (lib.rs). -/
def Country.malawi : Country :=
  ⟨"454", 454, "MW", "MWI", "Malawi",
   ⟨[], []⟩⟩

/-- `Country::malaysia()` (lib.rs). -/
def Country.malaysia : Country :=
  ⟨"458", 458, "MY", "MYS", "Malaysia",
   ⟨[], []⟩⟩

/-- `Country::maldives()` (lib.rs). -/
def Country.maldives : Country :=
  ⟨"462", 462, "MV", "MDV", "Maldives",
   ⟨[], []⟩⟩

/-- `Country::mali()` (lib.rs). -/
def Country.mali : Country :=
  ⟨"466", 466, "ML", "MLI", "Mali",
   ⟨[], []⟩⟩

/-- `Country::malta()` (lib.rs). -/
def Country.malta : Country :=
  ⟨"470", 470, "MT", "MLT", "Malta",
   ⟨[], []⟩⟩

/-- `Country::martinique()` (lib.rs). -/
def Country.martinique : Country :=
  ⟨"474", 474, "MQ", "MTQ", "Martinique",
   ⟨[], []⟩⟩

/-- `Country::mauritania()` (lib.rs). -/
def Country.mauritania : Country :=
  ⟨"478", 478, "MR", "MRT", "Mauritania",
   ⟨[], []⟩⟩

/-- `Country::mauritius()` (lib.rs). -/
def Country.mauritius : Country :=
  ⟨"480", 480, "MU", "MUS", "Mauritius",
   ⟨[], []⟩⟩

/-- `Country::mayotte()` (lib.rs). -/
def Country.mayotte : Country :=
  ⟨"175", 175, "YT", "MYT", "Mayotte",
   ⟨[], []⟩⟩

/-- `Country::mexico()` (lib.rs). -/
def Country.mexico : Country :=
  ⟨"484", 484, "MX", "MEX", "Mexico",
   ⟨[], []⟩⟩

/-- `Country::monaco()` (lib.rs). -/
def Country.monaco : Country :=
  ⟨"492", 492, "MC", "MCO", "Monaco",
   ⟨[], []⟩⟩

/-- `Country::mongolia()` (lib.rs). -/
def Country.mongolia : Country :=
  ⟨"496", 496, "MN", "MNG", "Mongolia",
   ⟨[], []⟩⟩

/-- `Country::montenegro()` (lib.rs). -/
def Country.montenegro : Country :=
  ⟨"499", 499, "ME", "MNE", "Montenegro",
   ⟨[], []⟩⟩

/-- `Country::montserrat()` (lib.rs). -/
def Country.montserrat : Country :=
  ⟨"500", 500, "MS", "MSR", "Montserrat",
   ⟨[], []⟩⟩

/-- `Country::morocco()` (lib.rs). -/
def Country.morocco : Country :=
  ⟨"504", 504, "MA", "MAR", "Morocco",
   ⟨[], []⟩⟩

/-- `Country::mozambique()` (lib.rs). -/
def Country.mozambique : Country :=
  ⟨"508", 508, "MZ", "MOZ", "Mozambique",
   ⟨[], []⟩⟩

/-- `Country::myanmar()` (lib.rs). -/
def Country.myanmar : Country :=
  ⟨"104", 104, "MM", "MMR", "Myanmar",
   ⟨[], []⟩⟩

/-- `Country::namibia()` (lib.rs). -/
def Country.namibia : Country :=
  ⟨"516", 516, "NA", "NAM", "Namibia",
   ⟨[], []⟩⟩

/-- `Country::nauru()` (lib.rs). -/
def Country.nauru : Country :=
  ⟨"520", 520, "NR", "NRU", "Nauru",
   ⟨[], []⟩⟩

/-- `Country::nepal()` (lib.rs). -/
def Country.nepal : Country :=
  ⟨"524", 524, "NP", "NPL", "Nepal",
   ⟨[], []⟩⟩

/-- `Country::new_caledonia()` (lib.rs). -/
def Country.new_caledonia : Country :=
  ⟨"540", 540, "NC", "NCL", "New Caledonia",
   ⟨[], []⟩⟩

/-- `Country::new_zealand()` (lib.rs). -/
def Country.new_zealand : Country :=
  ⟨"554", 554, "NZ", "NZL", "New Zealand",
   ⟨[], []⟩⟩

/-- `Country::nicaragua()` (lib.rs). -/
def Country.nicaragua : Country :=
  ⟨"558", 558, "NI", "NIC", "Nicaragua",
   ⟨[], []⟩⟩

/-- `Country::nigeria()` (lib.rs). -/
def Country.nigeria : Country :=
  ⟨"566", 566, "NG", "NGA", "Nigeria",
   ⟨[], []⟩⟩

/-- `Country::niue()` (lib.rs). -/
def Country.niue : Country :=
  ⟨"570", 570, "NU", "NIU", "Niue",
   ⟨[], []⟩⟩

/-- `Country::norfolk_island()` (lib.rs). -/
def Country.norfolk_island : Country :=
  ⟨"574", 574, "NF", "NFK", "Norfolk Island",
   ⟨[], []⟩⟩

/-- `Country::norway()` (lib.rs). -/
def Country.norway : Country :=
  ⟨"578", 578, "NO", "NOR", "Norway",
   ⟨[], []⟩⟩

/-- `Country::oman()` (lib.rs). -/
def Country.oman : Country :=
  ⟨"512", 512, "OM", "OMN", "Oman",
   ⟨[], []⟩⟩

/-- `Country::pakistan()` (lib.rs). -/
def Country.pakistan : Country :=
  ⟨"586", 586, "PK", "PAK", "Pakistan",
   ⟨[], []⟩⟩

/-- `Country::palau()` (lib.rs). -/
def Country.palau : Country :=
  ⟨"585", 585, "PW", "PLW", "Palau",
   ⟨[], []⟩⟩

/-- `Country::panama()` (lib.rs). -/
def Country.panama : Country :=
  ⟨"591", 591, "PA", "PAN", "Panama",
   ⟨[], []⟩⟩

/-- `Country::papua_new_guinea()` (lib.rs). -/
def Country.papua_new_guinea : Country :=
  ⟨"598", 598, "PG", "PNG", "Papua New Guinea",
   ⟨[], []⟩⟩

/-- `Country::paraguay()` (lib.rs). -/
def Country.paraguay : Country :=
  ⟨"600", 600, "PY", "PRY", "Paraguay",
   ⟨[], []⟩⟩

/-- `Country::peru()` (lib.rs). -/
def Country.peru : Country :=
  ⟨"604", 604, "PE", "PER", "Peru",
   ⟨[], []⟩⟩

/-- `Country::pitcairn()` (lib.rs). -/
def Country.pitcairn : Country :=
  ⟨"612", 612, "PN", "PCN", "Pitcairn",
   ⟨[], []⟩⟩

/-- `Country::poland()` (lib.rs). -/
def Country.poland : Country :=
  ⟨"616", 616, "PL", "POL", "Poland",
   ⟨[], []⟩⟩

/-- `Country::portugal()` (lib.rs). -/
def Country.portugal : Country :=
  ⟨"620", 620, "PT", "PRT", "Portugal",
   ⟨[], []⟩⟩

/-- `Country::puerto_rico()` (lib.rs). -/
def Country.puerto_rico : Country :=
  ⟨"630", 630, "PR", "PRI", "Puerto Rico",
   ⟨[], []⟩⟩

/-- `Country::qatar()` (lib.rs). -/
def Country.qatar : Country :=
  ⟨"634", 634, "QA", "QAT", "Qatar",
   ⟨[], []⟩⟩

/-- `Country::republic_of_north_macedonia()` (lib.rs). -/
def Country.republic_of_north_macedonia : Country :=
  ⟨"807", 807, "MK", "MKD", "Republic Of North Macedonia",
   ⟨["Macedonia"], ["macedonia"]⟩⟩

/-- `Country::reunion()` (lib.rs). -/
def Country.reunion : Country :=
  ⟨"638", 638, "RE", "REU", "Reunion",
   ⟨[], []⟩⟩

/-- `Country::romania()` (lib.rs). -/
def Country.romania : Country :=
  ⟨"642", 642, "RO", "ROU", "Romania",
   ⟨[], []⟩⟩

/-- `Country::rwanda()` (lib.rs). -/
def Country.rwanda : Country :=
  ⟨"646", 646, "RW", "RWA", "Rwanda",
   ⟨[], []⟩⟩

/-- `Country::saint_barthelemy()` (lib.rs). -/
def Country.saint_barthelemy : Country :=
  ⟨"652", 652, "BL", "BLM", "Saint Barthelemy",
   ⟨["StBarthelemy"], ["stbarthelemy"]⟩⟩

/-- `Country::saint_kitts_and_nevis()` (lib.rs). -/
def Country.saint_kitts_and_nevis : Country :=
  ⟨"659", 659, "KN", "KNA", "Saint Kitts And Nevis",
   ⟨["StKitts"], ["stkitts"]⟩⟩

/-- `Country::saint_lucia()` (lib.rs). -/
def Country.saint_lucia : Country :=
  ⟨"662", 662, "LC", "LCA", "Saint Lucia",
   ⟨["StLucia"], ["stlucia"]⟩⟩

/-- `Country::saint_pierre_and_miquelon()` (lib.rs). -/
def Country.saint_pierre_and_miquelon : Country :=
  ⟨"666", 666, "PM", "SPM", "Saint Pierre And Miquelon",
   ⟨["StPierre", "SaintPierre"], ["stpierre", "saintpierre"]⟩⟩

/-- `Country::saint_vincent_and_the_grenadines()` (lib.rs). -/
def Country.saint_vincent_and_the_grenadines : Country :=
  ⟨"670", 670, "VC", "VCT", "Saint Vincent And The Grenadines",
   ⟨["StVincent", "SaintVincent"], ["stvincent", "saintvincent"]⟩⟩

/-- `Country::samoa()` (lib.rs). -/
def Country.samoa : Country :=
  ⟨"882", 882, "WS", "WSM", "Samoa",
   ⟨[], []⟩⟩

/-- `Country::san_marino()` (lib.rs). -/
def Country.san_marino : Country :=
  ⟨"674", 674, "SM", "SMR", "San Marino",
   ⟨[], []⟩⟩

/-- `Country::sao_tome_and_principe()` (lib.rs). -/
def Country.sao_tome_and_principe : Country :=
  ⟨"678", 678, "ST", "STP", "Sao Tome And Principe",
   ⟨["SaoTome"], ["saotome"]⟩⟩

/-- `Country::saudi_arabia()` (lib.rs). -/
def Country.saudi_arabia : Country :=
  ⟨"682", 682, "SA", "SAU", "Saudi Arabia",
   ⟨[], []⟩⟩

/-- `Country::senegal()` (lib.rs). -/
def Country.senegal : Country :=
  ⟨"686", 686, "SN", "SEN", "Senegal",
   ⟨[], []⟩⟩

/-- `Country::serbia()` (lib.rs). -/
def Country.serbia : Country :=
  ⟨"688", 688, "RS", "SRB", "Serbia",
   ⟨[], []⟩⟩

/-- `Country::seychelles()` (lib.rs). -/
def Country.seychelles : Country :=
  ⟨"690", 690, "SC", "SYC", "Seychelles",
   ⟨[], []⟩⟩

/-- `Country::sierra_leone()` (lib.rs). -/
def Country.sierra_leone : Country :=
  ⟨"694", 694, "SL", "SLE", "Sierra Leone",
   ⟨[], []⟩⟩

/-- `Country::singapore()` (lib.rs). -/
def Country.singapore : Country :=
  ⟨"702", 702, "SG", "SGP", "Singapore",
   ⟨[], []⟩⟩

/-- `Country::slovakia()` (lib.rs). -/
def Country.slovakia : Country :=
  ⟨"703", 703, "SK", "SVK", "Slovakia",
   ⟨[], []⟩⟩

/-- `Country::slovenia()` (lib.rs). -/
def Country.slovenia : Country :=
  ⟨"705", 705, "SI", "SVN", "Slovenia",
   ⟨[], []⟩⟩

/-- `Country::solomon_islands()` (lib.rs). -/
def Country.solomon_islands : Country :=
  ⟨"090", 90, "SB", "SLB", "Solomon Islands",
   ⟨[], []⟩⟩

/-- `Country::somalia()` (lib.rs). -/
def Country.somalia : Country :=
  ⟨"706", 706, "SO", "SOM", "Somalia",
   ⟨[], []⟩⟩

/-- `Country::south_africa()` (lib.rs). -/
def Country.south_africa : Country :=
  ⟨"710", 710, "ZA", "ZAF", "South Africa",
   ⟨[], []⟩⟩

/-- `Country::south_georgia_and_the_south_sandwich_islands()` (lib.rs). -/
def Country.south_georgia_and_the_south_sandwich_islands : Country :=
  ⟨"239", 239, "GS", "SGS", "South Georgia And The South Sandwich Islands",
   ⟨["SouthGeorgia", "SouthSandwichIslands"], ["southgeorgia", "southsandwichislands"]⟩⟩

/-- `Country::south_sudan()` (lib.rs). -/
def Country.south_sudan : Country :=
  ⟨"728", 728, "SS", "SSD", "South Sudan",
   ⟨[], []⟩⟩

/-- `Country::spain()` (lib.rs). -/
def Country.spain : Country :=
  ⟨"724", 724, "ES", "ESP", "Spain",
   ⟨[], []⟩⟩

/-- `Country::sri_lanka()` (lib.rs). -/
def Country.sri_lanka : Country :=
  ⟨"144", 144, "LK", "LKA", "Sri Lanka",
   ⟨[], []⟩⟩

/-- `Country::state_of_palestine()` (lib.rs). -/
def Country.state_of_palestine : Country :=
  ⟨"275", 275, "PS", "PSE", "State Of Palestine",
   ⟨["Palestine"], ["palestine"]⟩⟩

/-- `Country::suriname()` (lib.rs). -/
def Country.suriname : Country :=
  ⟨"740", 740, "SR", "SUR", "Suriname",
   ⟨[], []⟩⟩

/-- `Country::svalbard_and_jan_mayen()` (lib.rs). -/
def Country.svalbard_and_jan_mayen : Country :=
  ⟨"744", 744, "SJ", "SJM", "Svalbard And Jan Mayen",
   ⟨[], []⟩⟩

/-- `Country::sweden()` (lib.rs). -/
def Country.sweden : Country :=
  ⟨"752", 752, "SE", "SWE", "Sweden",
   ⟨[], []⟩⟩

/-- `Country::switzerland()` (lib.rs). -/
def Country.switzerland : Country :=
  ⟨"756", 756, "CH", "CHE", "Switzerland",
   ⟨[], []⟩⟩

/-- `Country::syrian_arab_republic()` (lib.rs). -/
def Country.syrian_arab_republic : Country :=
  ⟨"760", 760, "SY", "SYR", "Syrian Arab Republic",
   ⟨[], []⟩⟩

/-- `Country::taiwan()` (lib.rs). -/
def Country.taiwan : Country :=
  ⟨"158", 158, "TW", "TWN", "Taiwan, Republic Of China",
   ⟨["Taiwan"], ["taiwan"]⟩⟩

/-- `Country::tajikistan()` (lib.rs). -/
def Country.tajikistan : Country :=
  ⟨"762", 762, "TJ", "TJK", "Tajikistan",
   ⟨[], []⟩⟩

/-- `Country::thailand()` (lib.rs). -/
def Country.thailand : Country :=
  ⟨"764", 764, "TH", "THA", "Thailand",
   ⟨[], []⟩⟩

/-- `Country::the_bahamas()` (lib.rs). -/
def Country.the_bahamas : Country :=
  ⟨"044", 44, "BS", "BHS", "The Bahamas",
   ⟨["Bahamas"], ["bahamas"]⟩⟩

/-- `Country::the_cayman_islands()` (lib.rs). -/
def Country.the_cayman_islands : Country :=
  ⟨"136", 136, "KY", "CYM", "The Cayman Islands",
   ⟨["CaymanIslands"], ["caymanislands"]⟩⟩

/-- `Country::the_central_african_republic()` (lib.rs). -/
def Country.the_central_african_republic : Country :=
  ⟨"140", 140, "CF", "CAF", "The Central African Republic",
   ⟨["CentralAfricanRepublic"], ["centralafricanrepublic"]⟩⟩

/-- `Country::the_cocos_keeling_islands()` (lib.rs). -/
def Country.the_cocos_keeling_islands : Country :=
  ⟨"166", 166, "CC", "CCK", "The Cocos Keeling Islands",
   ⟨["CocosIslands", "KeelingIslands"], ["cocosislands", "keelingislands"]⟩⟩

/-- `Country::the_comoros()` (lib.rs). -/
def Country.the_comoros : Country :=
  ⟨"174", 174, "KM", "COM", "The Comoros",
   ⟨["Comoros"], ["comoros"]⟩⟩

/-- `Country::the_congo()` (lib.rs). -/
def Country.the_congo : Country :=
  ⟨"178", 178, "CG", "COG", "The Congo",
   ⟨["Congo"], ["congo"]⟩⟩

/-- `Country::the_cook_islands()` (lib.rs). -/
def Country.the_cook_islands : Country :=
  ⟨"184", 184, "CK", "COK", "The Cook Islands",
   ⟨["CookIslands"], ["cookislands"]⟩⟩

/-- `Country::the_democratic_peoples_republic_of_korea()` (lib.rs). -/
def Country.the_democratic_peoples_republic_of_korea : Country :=
  ⟨"408", 408, "KP", "PRK", "The Democratic Peoples Republic Of Korea",
   ⟨["NorthKorea", "DemocraticPeoplesRepublicOfKorea"], ["northkorea", "democraticpeoplesrepublicofkorea"]⟩⟩

/-- `Country::the_democratic_republic_of_the_congo()` (lib.rs). -/
def Country.the_democratic_republic_of_the_congo : Country :=
  ⟨"180", 180, "CD", "COD", "The Democratic Republic Of The Congo",
   ⟨["DemocraticRepublicOfTheCongo"], ["democraticrepublicofthecongo"]⟩⟩

/-- `Country::the_dominican_republic()` (lib.rs). -/
def Country.the_dominican_republic : Country :=
  ⟨"214", 214, "DO", "DOM", "The Dominican Republic",
   ⟨["DominicanRepublic"], ["dominicanrepublic"]⟩⟩

/-- `Country::the_falkland_islands_malvinas()` (lib.rs). -/
def Country.the_falkland_islands_malvinas : Country :=
  ⟨"238", 238, "FK", "FLK", "The Falkland Islands Malvinas",
   ⟨["Malvinas", "FalklandIslands"], ["malvinas", "falklandislands"]⟩⟩

/-- `Country::the_faroe_islands()` (lib.rs). -/
def Country.the_faroe_islands : Country :=
  ⟨"234", 234, "FO", "FRO", "The Faroe Islands",
   ⟨["FaroeIslands"], ["faroeislands"]⟩⟩

/-- `Country::the_french_southern_territories()` (lib.rs). -/
def Country.the_french_southern_territories : Country :=
  ⟨"260", 260, "TF", "ATF", "The French Southern Territories",
   ⟨["FrenchSouthernTerritories"], ["frenchsouthernterritories"]⟩⟩

/-- `Country::the_gambia()` (lib.rs). -/
def Country.the_gambia : Country :=
  ⟨"270", 270, "GM", "GMB", "The Gambia",
   ⟨["Gambia"], ["gambia"]⟩⟩

/-- `Country::the_holy_see()` (lib.rs). -/
def Country.the_holy_see : Country :=
  ⟨"336", 336, "VA", "VAT", "The Holy See",
   ⟨["HolySee", "Vatican", "VaticanCity"], ["holysee", "vatican", "vaticancity"]⟩⟩

/-- `Country::the_lao_peoples_democratic_republic()` (lib.rs). -/
def Country.the_lao_peoples_democratic_republic : Country :=
  ⟨"418", 418, "LA", "LAO", "The Lao Peoples Democratic Republic",
   ⟨["LaoPeoplesDemocraticRepublic", "Laos"], ["laopeoplesdemocraticrepublic", "laos"]⟩⟩

/-- `Country::the_marshall_islands()` (lib.rs). -/
def Country.the_marshall_islands : Country :=
  ⟨"584", 584, "MH", "MHL", "The Marshall Islands",
   ⟨["MarshallIslands"], ["marshallislands"]⟩⟩

/-- `Country::the_netherlands()` (lib.rs). -/
def Country.the_netherlands : Country :=
  ⟨"528", 528, "NL", "NLD", "The Netherlands",
   ⟨["Netherlands", "Holland"], ["netherlands", "holland"]⟩⟩

/-- `Country::the_niger()` (lib.rs). -/
def Country.the_niger : Country :=
  ⟨"562", 562, "NE", "NER", "The Niger",
   ⟨["Niger"], ["niger"]⟩⟩

/-- `Country::the_northern_mariana_islands()` (lib.rs). -/
def Country.the_northern_mariana_islands : Country :=
  ⟨"580", 580, "MP", "MNP", "The Northern Mariana Islands",
   ⟨["NorthernMarianaIslands"], ["northernmarianaislands"]⟩⟩

/-- `Country::the_philippines()` (lib.rs). -/
def Country.the_philippines : Country :=
  ⟨"608", 608, "PH", "PHL", "The Philippines",
   ⟨["Philippines"], ["philippines"]⟩⟩

/-- `Country::the_republic_of_korea()` (lib.rs). -/
def Country.the_republic_of_korea : Country :=
  ⟨"410", 410, "KR", "KOR", "The Republic Of Korea",
   ⟨["SouthKorea", "RepublicOfKorea"], ["southkorea", "republicofkorea"]⟩⟩

/-- `Country::the_republic_of_moldova()` (lib.rs). -/
def Country.the_republic_of_moldova : Country :=
  ⟨"498", 498, "MD", "MDA", "The Republic Of Moldova",
   ⟨["Moldova", "RepublicOfMoldova"], ["moldova", "republicofmoldova"]⟩⟩

/-- `Country::the_russian_federation()` (lib.rs). -/
def Country.the_russian_federation : Country :=
  ⟨"643", 643, "RU", "RUS", "The Russian Federation",
   ⟨["Russia", "RussianFederation"], ["russia", "russianfederation"]⟩⟩

/-- `Country::the_sudan()` (lib.rs). -/
def Country.the_sudan : Country :=
  ⟨"729", 729, "SD", "SDN", "The Sudan",
   ⟨["Sudan"], ["sudan"]⟩⟩

/-- `Country::the_turks_and_caicos_islands()` (lib.rs). -/
def Country.the_turks_and_caicos_islands : Country :=
  ⟨"796", 796, "TC", "TCA", "The Turks And Caicos Islands",
   ⟨["TurksAndCaicosIslands"], ["turksandcaicosislands"]⟩⟩

/-- `Country::the_united_arab_emirates()` (lib.rs). -/
def Country.the_united_arab_emirates : Country :=
  ⟨"784", 784, "AE", "ARE", "The United Arab Emirates",
   ⟨["UnitedArabEmirates"], ["unitedarabemirates"]⟩⟩

/-- `Country::the_united_kingdom_of_great_britain_and_northern_ireland()` (lib.rs). -/
def Country.the_united_kingdom_of_great_britain_and_northern_ireland : Country :=
  ⟨"826", 826, "GB", "GBR", "The United Kingdom Of Great Britain And Northern Ireland",
   ⟨["England", "Scotland", "GreatBritain", "UnitedKingdom", "NorthernIreland", "UnitedKingdomOfGreatBritain", "UnitedKingdomOfGreatBritainAndNorthernIreland"], ["england", "scotland", "greatbritain", "unitedkingdom", "northernireland", "unitedkingdomofgreatbritain", "unitedkingdomofgreatbritainandnorthernireland"]⟩⟩

/-- `Country::the_united_states_minor_outlying_islands()` (lib.rs). -/
def Country.the_united_states_minor_outlying_islands : Country :=
  ⟨"581", 581, "UM", "UMI", "The United States Minor Outlying Islands",
   ⟨["UnitedStatesMinorOutlyingIslands"], ["unitedstatesminoroutlyingislands"]⟩⟩

/-- `Country::the_united_states_of_america()` (lib.rs). -/
def Country.the_united_states_of_america : Country :=
  ⟨"840", 840, "US", "USA", "The United States Of America",
   ⟨["America", "UnitedStates", "UnitedStatesOfAmerica"], ["america", "unitedstates", "unitedstatesofamerica"]⟩⟩

/-- `Country::timor_leste()` (lib.rs). -/
def Country.timor_leste : Country :=
  ⟨"626", 626, "TL", "TLS", "Timor Leste",
   ⟨["EastTimor"], ["easttimor"]⟩⟩

/-- `Country::togo()` (lib.rs). -/
def Country.togo : Country :=
  ⟨"768", 768, "TG", "TGO", "Togo",
   ⟨[], []⟩⟩

/-- `Country::tokelau()` (lib.rs). -/
def Country.tokelau : Country :=
  ⟨"772", 772, "TK", "TKL", "Tokelau",
   ⟨[], []⟩⟩

/-- `Country::tonga()` (lib.rs). -/
def Country.tonga : Country :=
  ⟨"776", 776, "TO", "TON", "Tonga",
   ⟨[], []⟩⟩

/-- `Country::trinidad_and_tobago()` (lib.rs). -/
def Country.trinidad_and_tobago : Country :=
  ⟨"780", 780, "TT", "TTO", "Trinidad And Tobago",
   ⟨["Trinidad", "Tobago"], ["trinidad", "tobago"]⟩⟩

/-- `Country::tunisia()` (lib.rs). -/
def Country.tunisia : Country :=
  ⟨"788", 788, "TN", "TUN", "Tunisia",
   ⟨[], []⟩⟩

/-- `Country::turkey()` (lib.rs). -/
def Country.turkey : Country :=
  ⟨"792", 792, "TR", "TUR", "Türkiye",
   ⟨["Turkey"], ["turkey"]⟩⟩

/-- `Country::turkmenistan()` (lib.rs). -/
def Country.turkmenistan : Country :=
  ⟨"795", 795, "TM", "TKM", "Turkmenistan",
   ⟨[], []⟩⟩

/-- `Country::tuvalu()` (lib.rs). -/
def Country.tuvalu : Country :=
  ⟨"798", 798, "TV", "TUV", "Tuvalu",
   ⟨[], []⟩⟩

/-- `Country::us_virgin_islands()` (lib.rs). -/
def Country.us_virgin_islands : Country :=
  ⟨"850", 850, "VI", "VIR", "US Virgin Islands",
   ⟨[], []⟩⟩

/-- `Country::uganda()` (lib.rs). -/
def Country.uganda : Country :=
  ⟨"800", 800, "UG", "UGA", "Uganda",
   ⟨[], []⟩⟩

/-- `Country::ukraine()` (lib.rs). -/
def Country.ukraine : Country :=
  ⟨"804", 804, "UA", "UKR", "Ukraine",
   ⟨[], []⟩⟩

/-- `Country::united_republic_of_tanzania()` (lib.rs). -/
def Country.united_republic_of_tanzania : Country :=
  ⟨"834", 834, "TZ", "TZA", "United Republic Of Tanzania",
   ⟨["Tanzania"], ["tanzania"]⟩⟩

/-- `Country::uruguay()` (lib.rs). -/
def Country.uruguay : Country :=
  ⟨"858", 858, "UY", "URY", "Uruguay",
   ⟨[], []⟩⟩

/-- `Country::uzbekistan()` (lib.rs). -/
def Country.uzbekistan : Country :=
  ⟨"860", 860, "UZ", "UZB", "Uzbekistan",
   ⟨[], []⟩⟩

/-- `Country::vanuatu()` (lib.rs). -/
def Country.vanuatu : Country :=
  ⟨"548", 548, "VU", "VUT", "Vanuatu",
   ⟨[], []⟩⟩

/-- `Country::vietnam()` (lib.rs). -/
def Country.vietnam : Country :=
  ⟨"704", 704, "VN", "VNM", "Vietnam",
   ⟨[], []⟩⟩

/-- `Country::wallis_and_futuna()` (lib.rs). -/
def Country.wallis_and_futuna : Country :=
  ⟨"876", 876, "WF", "WLF", "Wallis And Futuna",
   ⟨[], []⟩⟩

/-- `Country::western_sahara()` (lib.rs). -/
def Country.western_sahara : Country :=
  ⟨"732", 732, "EH", "ESH", "Western Sahara",
   ⟨[], []⟩⟩

/-- `Country::yemen()` (lib.rs). -/
def Country.yemen : Country :=
  ⟨"887", 887, "YE", "YEM", "Yemen",
   ⟨[], []⟩⟩

/-- `Country::zambia()` (lib.rs). -/
def Country.zambia : Country :=
  ⟨"894", 894, "ZM", "ZMB", "Zambia",
   ⟨[], []⟩⟩

/-- `Country::zimbabwe()` (lib.rs). -/
def Country.zimbabwe : Country :=
  ⟨"716", 716, "ZW", "ZWE", "Zimbabwe",
   ⟨[], []⟩⟩

/-- A `Country` value sharing `code`, `value` and `aliases` with
`Country.afghanistan` but differing in `alpha2`, `alpha3` and `long_name`
(the `Country` struct's fields are all public, so such values are
constructible by any caller). -/
def corruptedAfghanistan : Country :=
  ⟨"004", 4, "ZZ", "ZZZ", "Zzz", ⟨[], []⟩⟩

/-- `Country::get_countries()` (lib.rs lines 1373-1626): the full registry,
in source order. -/
def Country.get_countries : List Country :=
  [Country.afghanistan,
   Country.aland_islands,
   Country.albania,
   Country.algeria,
   Country.american_samoa,
   Country.andorra,
   Country.angola,
   Country.anguilla,
   Country.antarctica,
   Country.antigua_and_barbuda,
   Country.argentina,
   Country.armenia,
   Country.aruba,
   Country.ascension_and_tristan_da_cunha_saint_helena,
   Country.australia,
   Country.austria,
   Country.azerbaijan,
   Country.bahrain,
   Country.bangladesh,
   Country.barbados,
   Country.belarus,
   Country.belgium,
   Country.belize,
   Country.benin,
   Country.bermuda,
   Country.bhutan,
   Country.bolivarian_republic_of_venezuela,
   Country.bolivia,
   Country.bonaire,
   Country.bosnia_and_herzegovina,
   Country.botswana,
   Country.bouvet_island,
   Country.brazil,
   Country.british_indian_ocean_territory,
   Country.british_virgin_islands,
   Country.brunei_darussalam,
   Country.bulgaria,
   Country.burkina_faso,
   Country.burundi,
   Country.cabo_verde,
   Country.cambodia,
   Country.cameroon,
   Country.canada,
   Country.chad,
   Country.chile,
   Country.china,
   Country.christmas_island,
   Country.colombia,
   Country.costa_rica,
   Country.coted_ivoire,
   Country.croatia,
   Country.cuba,
   Country.curacao,
   Country.cyprus,
   Country.czechia,
   Country.denmark,
   Country.djibouti,
   Country.dominica,
   Country.dutch_part_sint_maarten,
   Country.ecuador,
   Country.egypt,
   Country.el_salvador,
   Country.equatorial_guinea,
   Country.eritrea,
   Country.estonia,
   Country.eswatini,
   Country.ethiopia,
   Country.federated_states_of_micronesia,
   Country.fiji,
   Country.finland,
   Country.france,
   Country.french_guiana,
   Country.french_part_saint_martin,
   Country.french_polynesia,
   Country.gabon,
   Country.georgia,
   Country.germany,
   Country.ghana,
   Country.gibraltar,
   Country.greece,
   Country.greenland,
   Country.grenada,
   Country.guadeloupe,
   Country.guam,
   Country.guatemala,
   Country.guernsey,
   Country.guinea,
   Country.guinea_bissau,
   Country.guyana,
   Country.haiti,
   Country.heard_island_and_mc_donald_islands,
   Country.honduras,
   Country.hong_kong,
   Country.hungary,
   Country.iceland,
   Country.india,
   Country.indonesia,
   Country.iraq,
   Country.ireland,
   Country.islamic_republic_of_iran,
   Country.isle_of_man,
   Country.israel,
   Country.italy,
   Country.jamaica,
   Country.japan,
   Country.jersey,
   Country.jordan,
   Country.kazakhstan,
   Country.kenya,
   Country.kiribati,
   Country.kosovo,
   Country.kuwait,
   Country.kyrgyzstan,
   Country.latvia,
   Country.lebanon,
   Country.lesotho,
   Country.liberia,
   Country.libya,
   Country.liechtenstein,
   Country.lithuania,
   Country.luxembourg,
   Country.macao,
   Country.madagascar,
   Country.malawi,
   Country.malaysia,
   Country.maldives,
   Country.mali,
   Country.malta,
   Country.martinique,
   Country.mauritania,
   Country.mauritius,
   Country.mayotte,
   Country.mexico,
   Country.monaco,
   Country.mongolia,
   Country.montenegro,
   Country.montserrat,
   Country.morocco,
   Country.mozambique,
   Country.myanmar,
   Country.namibia,
   Country.nauru,
   Country.nepal,
   Country.new_caledonia,
   Country.new_zealand,
   Country.nicaragua,
   Country.nigeria,
   Country.niue,
   Country.norfolk_island,
   Country.norway,
   Country.oman,
   Country.pakistan,
   Country.palau,
   Country.panama,
   Country.papua_new_guinea,
   Country.paraguay,
   Country.peru,
   Country.pitcairn,
   Country.poland,
   Country.portugal,
   Country.puerto_rico,
   Country.qatar,
   Country.republic_of_north_macedonia,
   Country.reunion,
   Country.romania,
   Country.rwanda,
   Country.saint_barthelemy,
   Country.saint_kitts_and_nevis,
   Country.saint_lucia,
   Country.saint_pierre_and_miquelon,
   Country.saint_vincent_and_the_grenadines,
   Country.samoa,
   Country.san_marino,
   Country.sao_tome_and_principe,
   Country.saudi_arabia,
   Country.senegal,
   Country.serbia,
   Country.seychelles,
   Country.sierra_leone,
   Country.singapore,
   Country.slovakia,
   Country.slovenia,
   Country.solomon_islands,
   Country.somalia,
   Country.south_africa,
   Country.south_georgia_and_the_south_sandwich_islands,
   Country.south_sudan,
   Country.spain,
   Country.sri_lanka,
   Country.state_of_palestine,
   Country.suriname,
   Country.svalbard_and_jan_mayen,
   Country.sweden,
   Country.switzerland,
   Country.syrian_arab_republic,
   Country.taiwan,
   Country.tajikistan,
   Country.thailand,
   Country.the_bahamas,
   Country.the_cayman_islands,
   Country.the_central_african_republic,
   Country.the_cocos_keeling_islands,
   Country.the_comoros,
   Country.the_congo,
   Country.the_cook_islands,
   Country.the_democratic_peoples_republic_of_korea,
   Country.the_democratic_republic_of_the_congo,
   Country.the_dominican_republic,
   Country.the_falkland_islands_malvinas,
   Country.the_faroe_islands,
   Country.the_french_southern_territories,
   Country.the_gambia,
   Country.the_holy_see,
   Country.the_lao_peoples_democratic_republic,
   Country.the_marshall_islands,
   Country.the_netherlands,
   Country.the_niger,
   Country.the_northern_mariana_islands,
   Country.the_philippines,
   Country.the_republic_of_korea,
   Country.the_republic_of_moldova,
   Country.the_russian_federation,
   Country.the_sudan,
   Country.the_turks_and_caicos_islands,
   Country.the_united_arab_emirates,
   Country.the_united_kingdom_of_great_britain_and_northern_ireland,
   Country.the_united_states_minor_outlying_islands,
   Country.the_united_states_of_america,
   Country.timor_leste,
   Country.togo,
   Country.tokelau,
   Country.tonga,
   Country.trinidad_and_tobago,
   Country.tunisia,
   Country.turkey,
   Country.turkmenistan,
   Country.tuvalu,
   Country.us_virgin_islands,
   Country.uganda,
   Country.ukraine,
   Country.united_republic_of_tanzania,
   Country.uruguay,
   Country.uzbekistan,
   Country.vanuatu,
   Country.vietnam,
   Country.wallis_and_futuna,
   Country.western_sahara,
   Country.yemen,
   Country.zambia,
   Country.zimbabwe]

/-- The `VALUES` map of `Country::from_value` (lib.rs). -/
def Country.VALUES : List (Nat × Country) :=
  [(4, Country.afghanistan),
   (248, Country.aland_islands),
   (8, Country.albania),
   (12, Country.algeria),
   (16, Country.american_samoa),
   (20, Country.andorra),
   (24, Country.angola),
   (660, Country.anguilla),
   (10, Country.antarctica),
   (28, Country.antigua_and_barbuda),
   (32, Country.argentina),
   (51, Country.armenia),
   (533, Country.aruba),
   (654, Country.ascension_and_tristan_da_cunha_saint_helena),
   (36, Country.australia),
   (40, Country.austria),
   (31, Country.azerbaijan),
   (48, Country.bahrain),
   (50, Country.bangladesh),
   (52, Country.barbados),
   (112, Country.belarus),
   (56, Country.belgium),
   (84, Country.belize),
   (204, Country.benin),
   (60, Country.bermuda),
   (64, Country.bhutan),
   (862, Country.bolivarian_republic_of_venezuela),
   (68, Country.bolivia),
   (535, Country.bonaire),
   (70, Country.bosnia_and_herzegovina),
   (72, Country.botswana),
   (74, Country.bouvet_island),
   (76, Country.brazil),
   (86, Country.british_indian_ocean_territory),
   (92, Country.british_virgin_islands),
   (96, Country.brunei_darussalam),
   (100, Country.bulgaria),
   (854, Country.burkina_faso),
   (108, Country.burundi),
   (132, Country.cabo_verde),
   (116, Country.cambodia),
   (120, Country.cameroon),
   (124, Country.canada),
   (148, Country.chad),
   (152, Country.chile),
   (156, Country.china),
   (162, Country.christmas_island),
   (170, Country.colombia),
   (188, Country.costa_rica),
   (384, Country.coted_ivoire),
   (191, Country.croatia),
   (192, Country.cuba),
   (531, Country.curacao),
   (196, Country.cyprus),
   (203, Country.czechia),
   (208, Country.denmark),
   (262, Country.djibouti),
   (212, Country.dominica),
   (534, Country.dutch_part_sint_maarten),
   (218, Country.ecuador),
   (818, Country.egypt),
   (222, Country.el_salvador),
   (226, Country.equatorial_guinea),
   (232, Country.eritrea),
   (233, Country.estonia),
   (748, Country.eswatini),
   (231, Country.ethiopia),
   (583, Country.federated_states_of_micronesia),
   (242, Country.fiji),
   (246, Country.finland),
   (250, Country.france),
   (254, Country.french_guiana),
   (663, Country.french_part_saint_martin),
   (258, Country.french_polynesia),
   (266, Country.gabon),
   (268, Country.georgia),
   (276, Country.germany),
   (288, Country.ghana),
   (292, Country.gibraltar),
   (300, Country.greece),
   (304, Country.greenland),
   (308, Country.grenada),
   (312, Country.guadeloupe),
   (316, Country.guam),
   (320, Country.guatemala),
   (831, Country.guernsey),
   (324, Country.guinea),
   (624, Country.guinea_bissau),
   (328, Country.guyana),
   (332, Country.haiti),
   (334, Country.heard_island_and_mc_donald_islands),
   (340, Country.honduras),
   (344, Country.hong_kong),
   (348, Country.hungary),
   (352, Country.iceland),
   (356, Country.india),
   (360, Country.indonesia),
   (368, Country.iraq),
   (372, Country.ireland),
   (364, Country.islamic_republic_of_iran),
   (833, Country.isle_of_man),
   (376, Country.israel),
   (380, Country.italy),
   (388, Country.jamaica),
   (392, Country.japan),
   (832, Country.jersey),
   (400, Country.jordan),
   (398, Country.kazakhstan),
   (404, Country.kenya),
   (296, Country.kiribati),
   (383, Country.kosovo),
   (414, Country.kuwait),
   (417, Country.kyrgyzstan),
   (428, Country.latvia),
   (422, Country.lebanon),
   (426, Country.lesotho),
   (430, Country.liberia),
   (434, Country.libya),
   (438, Country.liechtenstein),
   (440, Country.lithuania),
   (442, Country.luxembourg),
   (446, Country.macao),
   (450, Country.madagascar),
   (454, Country.malawi),
   (458, Country.malaysia),
   (462, Country.maldives),
   (466, Country.mali),
   (470, Country.malta),
   (474, Country.martinique),
   (478, Country.mauritania),
   (480, Country.mauritius),
   (175, Country.mayotte),
   (484, Country.mexico),
   (492, Country.monaco),
   (496, Country.mongolia),
   (499, Country.montenegro),
   (500, Country.montserrat),
   (504, Country.morocco),
   (508, Country.mozambique),
   (104, Country.myanmar),
   (516, Country.namibia),
   (520, Country.nauru),
   (524, Country.nepal),
   (540, Country.new_caledonia),
   (554, Country.new_zealand),
   (558, Country.nicaragua),
   (566, Country.nigeria),
   (570, Country.niue),
   (574, Country.norfolk_island),
   (578, Country.norway),
   (512, Country.oman),
   (586, Country.pakistan),
   (585, Country.palau),
   (591, Country.panama),
   (598, Country.papua_new_guinea),
   (600, Country.paraguay),
   (604, Country.peru),
   (612, Country.pitcairn),
   (616, Country.poland),
   (620, Country.portugal),
   (630, Country.puerto_rico),
   (634, Country.qatar),
   (807, Country.republic_of_north_macedonia),
   (638, Country.reunion),
   (642, Country.romania),
   (646, Country.rwanda),
   (652, Country.saint_barthelemy),
   (659, Country.saint_kitts_and_nevis),
   (662, Country.saint_lucia),
   (666, Country.saint_pierre_and_miquelon),
   (670, Country.saint_vincent_and_the_grenadines),
   (882, Country.samoa),
   (674, Country.san_marino),
   (678, Country.sao_tome_and_principe),
   (682, Country.saudi_arabia),
   (686, Country.senegal),
   (688, Country.serbia),
   (690, Country.seychelles),
   (694, Country.sierra_leone),
   (702, Country.singapore),
   (703, Country.slovakia),
   (705, Country.slovenia),
   (90, Country.solomon_islands),
   (706, Country.somalia),
   (710, Country.south_africa),
   (239, Country.south_georgia_and_the_south_sandwich_islands),
   (728, Country.south_sudan),
   (724, Country.spain),
   (144, Country.sri_lanka),
   (275, Country.state_of_palestine),
   (740, Country.suriname),
   (744, Country.svalbard_and_jan_mayen),
   (752, Country.sweden),
   (756, Country.switzerland),
   (760, Country.syrian_arab_republic),
   (158, Country.taiwan),
   (762, Country.tajikistan),
   (764, Country.thailand),
   (44, Country.the_bahamas),
   (136, Country.the_cayman_islands),
   (140, Country.the_central_african_republic),
   (166, Country.the_cocos_keeling_islands),
   (174, Country.the_comoros),
   (178, Country.the_congo),
   (184, Country.the_cook_islands),
   (408, Country.the_democratic_peoples_republic_of_korea),
   (180, Country.the_democratic_republic_of_the_congo),
   (214, Country.the_dominican_republic),
   (238, Country.the_falkland_islands_malvinas),
   (234, Country.the_faroe_islands),
   (260, Country.the_french_southern_territories),
   (270, Country.the_gambia),
   (336, Country.the_holy_see),
   (418, Country.the_lao_peoples_democratic_republic),
   (584, Country.the_marshall_islands),
   (528, Country.the_netherlands),
   (562, Country.the_niger),
   (580, Country.the_northern_mariana_islands),
   (608, Country.the_philippines),
   (410, Country.the_republic_of_korea),
   (498, Country.the_republic_of_moldova),
   (643, Country.the_russian_federation),
   (729, Country.the_sudan),
   (796, Country.the_turks_and_caicos_islands),
   (784, Country.the_united_arab_emirates),
   (826, Country.the_united_kingdom_of_great_britain_and_northern_ireland),
   (581, Country.the_united_states_minor_outlying_islands),
   (840, Country.the_united_states_of_america),
   (626, Country.timor_leste),
   (768, Country.togo),
   (772, Country.tokelau),
   (776, Country.tonga),
   (780, Country.trinidad_and_tobago),
   (788, Country.tunisia),
   (792, Country.turkey),
   (795, Country.turkmenistan),
   (798, Country.tuvalu),
   (850, Country.us_virgin_islands),
   (800, Country.uganda),
   (804, Country.ukraine),
   (834, Country.united_republic_of_tanzania),
   (858, Country.uruguay),
   (860, Country.uzbekistan),
   (548, Country.vanuatu),
   (704, Country.vietnam),
   (876, Country.wallis_and_futuna),
   (732, Country.western_sahara),
   (887, Country.yemen),
   (894, Country.zambia),
   (716, Country.zimbabwe)]

/-- The `CODES` map of `Country::from_code` (lib.rs). -/
def Country.CODES : List (String × Country) :=
  [("004", Country.afghanistan),
   ("248", Country.aland_islands),
   ("008", Country.albania),
   ("012", Country.algeria),
   ("016", Country.american_samoa),
   ("020", Country.andorra),
   ("024", Country.angola),
   ("660", Country.anguilla),
   ("010", Country.antarctica),
   ("028", Country.antigua_and_barbuda),
   ("032", Country.argentina),
   ("051", Country.armenia),
   ("533", Country.aruba),
   ("654", Country.ascension_and_tristan_da_cunha_saint_helena),
   ("036", Country.australia),
   ("040", Country.austria),
   ("031", Country.azerbaijan),
   ("048", Country.bahrain),
   ("050", Country.bangladesh),
   ("052", Country.barbados),
   ("112", Country.belarus),
   ("056", Country.belgium),
   ("084", Country.belize),
   ("204", Country.benin),
   ("060", Country.bermuda),
   ("064", Country.bhutan),
   ("862", Country.bolivarian_republic_of_venezuela),
   ("068", Country.bolivia),
   ("535", Country.bonaire),
   ("070", Country.bosnia_and_herzegovina),
   ("072", Country.botswana),
   ("074", Country.bouvet_island),
   ("076", Country.brazil),
   ("086", Country.british_indian_ocean_territory),
   ("092", Country.british_virgin_islands),
   ("096", Country.brunei_darussalam),
   ("100", Country.bulgaria),
   ("854", Country.burkina_faso),
   ("108", Country.burundi),
   ("132", Country.cabo_verde),
   ("116", Country.cambodia),
   ("120", Country.cameroon),
   ("124", Country.canada),
   ("148", Country.chad),
   ("152", Country.chile),
   ("156", Country.china),
   ("162", Country.christmas_island),
   ("170", Country.colombia),
   ("188", Country.costa_rica),
   ("384", Country.coted_ivoire),
   ("191", Country.croatia),
   ("192", Country.cuba),
   ("531", Country.curacao),
   ("196", Country.cyprus),
   ("203", Country.czechia),
   ("208", Country.denmark),
   ("262", Country.djibouti),
   ("212", Country.dominica),
   ("534", Country.dutch_part_sint_maarten),
   ("218", Country.ecuador),
   ("818", Country.egypt),
   ("222", Country.el_salvador),
   ("226", Country.equatorial_guinea),
   ("232", Country.eritrea),
   ("233", Country.estonia),
   ("748", Country.eswatini),
   ("231", Country.ethiopia),
   ("583", Country.federated_states_of_micronesia),
   ("242", Country.fiji),
   ("246", Country.finland),
   ("250", Country.france),
   ("254", Country.french_guiana),
   ("663", Country.french_part_saint_martin),
   ("258", Country.french_polynesia),
   ("266", Country.gabon),
   ("268", Country.georgia),
   ("276", Country.germany),
   ("288", Country.ghana),
   ("292", Country.gibraltar),
   ("300", Country.greece),
   ("304", Country.greenland),
   ("308", Country.grenada),
   ("312", Country.guadeloupe),
   ("316", Country.guam),
   ("320", Country.guatemala),
   ("831", Country.guernsey),
   ("324", Country.guinea),
   ("624", Country.guinea_bissau),
   ("328", Country.guyana),
   ("332", Country.haiti),
   ("334", Country.heard_island_and_mc_donald_islands),
   ("340", Country.honduras),
   ("344", Country.hong_kong),
   ("348", Country.hungary),
   ("352", Country.iceland),
   ("356", Country.india),
   ("360", Country.indonesia),
   ("368", Country.iraq),
   ("372", Country.ireland),
   ("364", Country.islamic_republic_of_iran),
   ("833", Country.isle_of_man),
   ("376", Country.israel),
   ("380", Country.italy),
   ("388", Country.jamaica),
   ("392", Country.japan),
   ("832", Country.jersey),
   ("400", Country.jordan),
   ("398", Country.kazakhstan),
   ("404", Country.kenya),
   ("296", Country.kiribati),
   ("383", Country.kosovo),
   ("414", Country.kuwait),
   ("417", Country.kyrgyzstan),
   ("428", Country.latvia),
   ("422", Country.lebanon),
   ("426", Country.lesotho),
   ("430", Country.liberia),
   ("434", Country.libya),
   ("438", Country.liechtenstein),
   ("440", Country.lithuania),
   ("442", Country.luxembourg),
   ("446", Country.macao),
   ("450", Country.madagascar),
   ("454", Country.malawi),
   ("458", Country.malaysia),
   ("462", Country.maldives),
   ("466", Country.mali),
   ("470", Country.malta),
   ("474", Country.martinique),
   ("478", Country.mauritania),
   ("480", Country.mauritius),
   ("175", Country.mayotte),
   ("484", Country.mexico),
   ("492", Country.monaco),
   ("496", Country.mongolia),
   ("499", Country.montenegro),
   ("500", Country.montserrat),
   ("504", Country.morocco),
   ("508", Country.mozambique),
   ("104", Country.myanmar),
   ("516", Country.namibia),
   ("520", Country.nauru),
   ("524", Country.nepal),
   ("540", Country.new_caledonia),
   ("554", Country.new_zealand),
   ("558", Country.nicaragua),
   ("566", Country.nigeria),
   ("570", Country.niue),
   ("574", Country.norfolk_island),
   ("578", Country.norway),
   ("512", Country.oman),
   ("586", Country.pakistan),
   ("585", Country.palau),
   ("591", Country.panama),
   ("598", Country.papua_new_guinea),
   ("600", Country.paraguay),
   ("604", Country.peru),
   ("612", Country.pitcairn),
   ("616", Country.poland),
   ("620", Country.portugal),
   ("630", Country.puerto_rico),
   ("634", Country.qatar),
   ("807", Country.republic_of_north_macedonia),
   ("638", Country.reunion),
   ("642", Country.romania),
   ("646", Country.rwanda),
   ("652", Country.saint_barthelemy),
   ("659", Country.saint_kitts_and_nevis),
   ("662", Country.saint_lucia),
   ("666", Country.saint_pierre_and_miquelon),
   ("670", Country.saint_vincent_and_the_grenadines),
   ("882", Country.samoa),
   ("674", Country.san_marino),
   ("678", Country.sao_tome_and_principe),
   ("682", Country.saudi_arabia),
   ("686", Country.senegal),
   ("688", Country.serbia),
   ("690", Country.seychelles),
   ("694", Country.sierra_leone),
   ("702", Country.singapore),
   ("703", Country.slovakia),
   ("705", Country.slovenia),
   ("090", Country.solomon_islands),
   ("706", Country.somalia),
   ("710", Country.south_africa),
   ("239", Country.south_georgia_and_the_south_sandwich_islands),
   ("728", Country.south_sudan),
   ("724", Country.spain),
   ("144", Country.sri_lanka),
   ("275", Country.state_of_palestine),
   ("740", Country.suriname),
   ("744", Country.svalbard_and_jan_mayen),
   ("752", Country.sweden),
   ("756", Country.switzerland),
   ("760", Country.syrian_arab_republic),
   ("158", Country.taiwan),
   ("762", Country.tajikistan),
   ("764", Country.thailand),
   ("044", Country.the_bahamas),
   ("136", Country.the_cayman_islands),
   ("140", Country.the_central_african_republic),
   ("166", Country.the_cocos_keeling_islands),
   ("174", Country.the_comoros),
   ("178", Country.the_congo),
   ("184", Country.the_cook_islands),
   ("408", Country.the_democratic_peoples_republic_of_korea),
   ("180", Country.the_democratic_republic_of_the_congo),
   ("214", Country.the_dominican_republic),
   ("238", Country.the_falkland_islands_malvinas),
   ("234", Country.the_faroe_islands),
   ("260", Country.the_french_southern_territories),
   ("270", Country.the_gambia),
   ("336", Country.the_holy_see),
   ("418", Country.the_lao_peoples_democratic_republic),
   ("584", Country.the_marshall_islands),
   ("528", Country.the_netherlands),
   ("562", Country.the_niger),
   ("580", Country.the_northern_mariana_islands),
   ("608", Country.the_philippines),
   ("410", Country.the_republic_of_korea),
   ("498", Country.the_republic_of_moldova),
   ("643", Country.the_russian_federation),
   ("729", Country.the_sudan),
   ("796", Country.the_turks_and_caicos_islands),
   ("784", Country.the_united_arab_emirates),
   ("826", Country.the_united_kingdom_of_great_britain_and_northern_ireland),
   ("581", Country.the_united_states_minor_outlying_islands),
   ("840", Country.the_united_states_of_america),
   ("626", Country.timor_leste),
   ("768", Country.togo),
   ("772", Country.tokelau),
   ("776", Country.tonga),
   ("780", Country.trinidad_and_tobago),
   ("788", Country.tunisia),
   ("792", Country.turkey),
   ("795", Country.turkmenistan),
   ("798", Country.tuvalu),
   ("850", Country.us_virgin_islands),
   ("800", Country.uganda),
   ("804", Country.ukraine),
   ("834", Country.united_republic_of_tanzania),
   ("858", Country.uruguay),
   ("860", Country.uzbekistan),
   ("548", Country.vanuatu),
   ("704", Country.vietnam),
   ("876", Country.wallis_and_futuna),
   ("732", Country.western_sahara),
   ("887", Country.yemen),
   ("894", Country.zambia),
   ("716", Country.zimbabwe)]

/-- The `ALPHA2` map of `Country::from_alpha2` (lib.rs). -/
def Country.ALPHA2 : List (String × Country) :=
  [("af", Country.afghanistan),
   ("ax", Country.aland_islands),
   ("al", Country.albania),
   ("dz", Country.algeria),
   ("as", Country.american_samoa),
   ("ad", Country.andorra),
   ("ao", Country.angola),
   ("ai", Country.anguilla),
   ("aq", Country.antarctica),
   ("ag", Country.antigua_and_barbuda),
   ("ar", Country.argentina),
   ("am", Country.armenia),
   ("aw", Country.aruba),
   ("sh", Country.ascension_and_tristan_da_cunha_saint_helena),
   ("au", Country.australia),
   ("at", Country.austria),
   ("az", Country.azerbaijan),
   ("bh", Country.bahrain),
   ("bd", Country.bangladesh),
   ("bb", Country.barbados),
   ("by", Country.belarus),
   ("be", Country.belgium),
   ("bz", Country.belize),
   ("bj", Country.benin),
   ("bm", Country.bermuda),
   ("bt", Country.bhutan),
   ("ve", Country.bolivarian_republic_of_venezuela),
   ("bo", Country.bolivia),
   ("bq", Country.bonaire),
   ("ba", Country.bosnia_and_herzegovina),
   ("bw", Country.botswana),
   ("bv", Country.bouvet_island),
   ("br", Country.brazil),
   ("io", Country.british_indian_ocean_territory),
   ("vg", Country.british_virgin_islands),
   ("bn", Country.brunei_darussalam),
   ("bg", Country.bulgaria),
   ("bf", Country.burkina_faso),
   ("bi", Country.burundi),
   ("cv", Country.cabo_verde),
   ("kh", Country.cambodia),
   ("cm", Country.cameroon),
   ("ca", Country.canada),
   ("td", Country.chad),
   ("cl", Country.chile),
   ("cn", Country.china),
   ("cx", Country.christmas_island),
   ("co", Country.colombia),
   ("cr", Country.costa_rica),
   ("ci", Country.coted_ivoire),
   ("hr", Country.croatia),
   ("cu", Country.cuba),
   ("cw", Country.curacao),
   ("cy", Country.cyprus),
   ("cz", Country.czechia),
   ("dk", Country.denmark),
   ("dj", Country.djibouti),
   ("dm", Country.dominica),
   ("sx", Country.dutch_part_sint_maarten),
   ("ec", Country.ecuador),
   ("eg", Country.egypt),
   ("sv", Country.el_salvador),
   ("gq", Country.equatorial_guinea),
   ("er", Country.eritrea),
   ("ee", Country.estonia),
   ("sz", Country.eswatini),
   ("et", Country.ethiopia),
   ("fm", Country.federated_states_of_micronesia),
   ("fj", Country.fiji),
   ("fi", Country.finland),
   ("fr", Country.france),
   ("gf", Country.french_guiana),
   ("mf", Country.french_part_saint_martin),
   ("pf", Country.french_polynesia),
   ("ga", Country.gabon),
   ("ge", Country.georgia),
   ("de", Country.germany),
   ("gh", Country.ghana),
   ("gi", Country.gibraltar),
   ("gr", Country.greece),
   ("gl", Country.greenland),
   ("gd", Country.grenada),
   ("gp", Country.guadeloupe),
   ("gu", Country.guam),
   ("gt", Country.guatemala),
   ("gg", Country.guernsey),
   ("gn", Country.guinea),
   ("gw", Country.guinea_bissau),
   ("gy", Country.guyana),
   ("ht", Country.haiti),
   ("hm", Country.heard_island_and_mc_donald_islands),
   ("hn", Country.honduras),
   ("hk", Country.hong_kong),
   ("hu", Country.hungary),
   ("is", Country.iceland),
   ("in", Country.india),
   ("id", Country.indonesia),
   ("iq", Country.iraq),
   ("ie", Country.ireland),
   ("ir", Country.islamic_republic_of_iran),
   ("im", Country.isle_of_man),
   ("il", Country.israel),
   ("it", Country.italy),
   ("jm", Country.jamaica),
   ("jp", Country.japan),
   ("je", Country.jersey),
   ("jo", Country.jordan),
   ("kz", Country.kazakhstan),
   ("ke", Country.kenya),
   ("ki", Country.kiribati),
   ("xk", Country.kosovo),
   ("kw", Country.kuwait),
   ("kg", Country.kyrgyzstan),
   ("lv", Country.latvia),
   ("lb", Country.lebanon),
   ("ls", Country.lesotho),
   ("lr", Country.liberia),
   ("ly", Country.libya),
   ("li", Country.liechtenstein),
   ("lt", Country.lithuania),
   ("lu", Country.luxembourg),
   ("mo", Country.macao),
   ("mg", Country.madagascar),
   ("mw", Country.malawi),
   ("my", Country.malaysia),
   ("mv", Country.maldives),
   ("ml", Country.mali),
   ("mt", Country.malta),
   ("mq", Country.martinique),
   ("mr", Country.mauritania),
   ("mu", Country.mauritius),
   ("yt", Country.mayotte),
   ("mx", Country.mexico),
   ("mc", Country.monaco),
   ("mn", Country.mongolia),
   ("me", Country.montenegro),
   ("ms", Country.montserrat),
   ("ma", Country.morocco),
   ("mz", Country.mozambique),
   ("mm", Country.myanmar),
   ("na", Country.namibia),
   ("nr", Country.nauru),
   ("np", Country.nepal),
   ("nc", Country.new_caledonia),
   ("nz", Country.new_zealand),
   ("ni", Country.nicaragua),
   ("ng", Country.nigeria),
   ("nu", Country.niue),
   ("nf", Country.norfolk_island),
   ("no", Country.norway),
   ("om", Country.oman),
   ("pk", Country.pakistan),
   ("pw", Country.palau),
   ("pa", Country.panama),
   ("pg", Country.papua_new_guinea),
   ("py", Country.paraguay),
   ("pe", Country.peru),
   ("pn", Country.pitcairn),
   ("pl", Country.poland),
   ("pt", Country.portugal),
   ("pr", Country.puerto_rico),
   ("qa", Country.qatar),
   ("mk", Country.republic_of_north_macedonia),
   ("re", Country.reunion),
   ("ro", Country.romania),
   ("rw", Country.rwanda),
   ("bl", Country.saint_barthelemy),
   ("kn", Country.saint_kitts_and_nevis),
   ("lc", Country.saint_lucia),
   ("pm", Country.saint_pierre_and_miquelon),
   ("vc", Country.saint_vincent_and_the_grenadines),
   ("ws", Country.samoa),
   ("sm", Country.san_marino),
   ("st", Country.sao_tome_and_principe),
   ("sa", Country.saudi_arabia),
   ("sn", Country.senegal),
   ("rs", Country.serbia),
   ("sc", Country.seychelles),
   ("sl", Country.sierra_leone),
   ("sg", Country.singapore),
   ("sk", Country.slovakia),
   ("si", Country.slovenia),
   ("sb", Country.solomon_islands),
   ("so", Country.somalia),
   ("za", Country.south_africa),
   ("gs", Country.south_georgia_and_the_south_sandwich_islands),
   ("ss", Country.south_sudan),
   ("es", Country.spain),
   ("lk", Country.sri_lanka),
   ("ps", Country.state_of_palestine),
   ("sr", Country.suriname),
   ("sj", Country.svalbard_and_jan_mayen),
   ("se", Country.sweden),
   ("ch", Country.switzerland),
   ("sy", Country.syrian_arab_republic),
   ("tw", Country.taiwan),
   ("tj", Country.tajikistan),
   ("th", Country.thailand),
   ("bs", Country.the_bahamas),
   ("ky", Country.the_cayman_islands),
   ("cf", Country.the_central_african_republic),
   ("cc", Country.the_cocos_keeling_islands),
   ("km", Country.the_comoros),
   ("cg", Country.the_congo),
   ("ck", Country.the_cook_islands),
   ("kp", Country.the_democratic_peoples_republic_of_korea),
   ("cd", Country.the_democratic_republic_of_the_congo),
   ("do", Country.the_dominican_republic),
   ("fk", Country.the_falkland_islands_malvinas),
   ("fo", Country.the_faroe_islands),
   ("tf", Country.the_french_southern_territories),
   ("gm", Country.the_gambia),
   ("va", Country.the_holy_see),
   ("la", Country.the_lao_peoples_democratic_republic),
   ("mh", Country.the_marshall_islands),
   ("nl", Country.the_netherlands),
   ("ne", Country.the_niger),
   ("mp", Country.the_northern_mariana_islands),
   ("ph", Country.the_philippines),
   ("kr", Country.the_republic_of_korea),
   ("md", Country.the_republic_of_moldova),
   ("ru", Country.the_russian_federation),
   ("sd", Country.the_sudan),
   ("tc", Country.the_turks_and_caicos_islands),
   ("ae", Country.the_united_arab_emirates),
   ("gb", Country.the_united_kingdom_of_great_britain_and_northern_ireland),
   ("um", Country.the_united_states_minor_outlying_islands),
   ("us", Country.the_united_states_of_america),
   ("tl", Country.timor_leste),
   ("tg", Country.togo),
   ("tk", Country.tokelau),
   ("to", Country.tonga),
   ("tt", Country.trinidad_and_tobago),
   ("tn", Country.tunisia),
   ("tr", Country.turkey),
   ("tm", Country.turkmenistan),
   ("tv", Country.tuvalu),
   ("vi", Country.us_virgin_islands),
   ("ug", Country.uganda),
   ("ua", Country.ukraine),
   ("tz", Country.united_republic_of_tanzania),
   ("uy", Country.uruguay),
   ("uz", Country.uzbekistan),
   ("vu", Country.vanuatu),
   ("vn", Country.vietnam),
   ("wf", Country.wallis_and_futuna),
   ("eh", Country.western_sahara),
   ("ye", Country.yemen),
   ("zm", Country.zambia),
   ("zw", Country.zimbabwe)]

/-- The `ALPHA3` map of `Country::from_alpha3` (lib.rs). -/
def Country.ALPHA3 : List (String × Country) :=
  [("afg", Country.afghanistan),
   ("ala", Country.aland_islands),
   ("alb", Country.albania),
   ("dza", Country.algeria),
   ("asm", Country.american_samoa),
   ("and", Country.andorra),
   ("ago", Country.angola),
   ("aia", Country.anguilla),
   ("ata", Country.antarctica),
   ("atg", Country.antigua_and_barbuda),
   ("arg", Country.argentina),
   ("arm", Country.armenia),
   ("abw", Country.aruba),
   ("shn", Country.ascension_and_tristan_da_cunha_saint_helena),
   ("aus", Country.australia),
   ("aut", Country.austria),
   ("aze", Country.azerbaijan),
   ("bhr", Country.bahrain),
   ("bgd", Country.bangladesh),
   ("brb", Country.barbados),
   ("blr", Country.belarus),
   ("bel", Country.belgium),
   ("blz", Country.belize),
   ("ben", Country.benin),
   ("bmu", Country.bermuda),
   ("btn", Country.bhutan),
   ("ven", Country.bolivarian_republic_of_venezuela),
   ("bol", Country.bolivia),
   ("bes", Country.bonaire),
   ("bih", Country.bosnia_and_herzegovina),
   ("bwa", Country.botswana),
   ("bvt", Country.bouvet_island),
   ("bra", Country.brazil),
   ("iot", Country.british_indian_ocean_territory),
   ("vgb", Country.british_virgin_islands),
   ("brn", Country.brunei_darussalam),
   ("bgr", Country.bulgaria),
   ("bfa", Country.burkina_faso),
   ("bdi", Country.burundi),
   ("cpv", Country.cabo_verde),
   ("khm", Country.cambodia),
   ("cmr", Country.cameroon),
   ("can", Country.canada),
   ("tcd", Country.chad),
   ("chl", Country.chile),
   ("chn", Country.china),
   ("cxr", Country.christmas_island),
   ("col", Country.colombia),
   ("cri", Country.costa_rica),
   ("civ", Country.coted_ivoire),
   ("hrv", Country.croatia),
   ("cub", Country.cuba),
   ("cuw", Country.curacao),
   ("cyp", Country.cyprus),
   ("cze", Country.czechia),
   ("dnk", Country.denmark),
   ("dji", Country.djibouti),
   ("dma", Country.dominica),
   ("sxm", Country.dutch_part_sint_maarten),
   ("ecu", Country.ecuador),
   ("egy", Country.egypt),
   ("slv", Country.el_salvador),
   ("gnq", Country.equatorial_guinea),
   ("eri", Country.eritrea),
   ("est", Country.estonia),
   ("swz", Country.eswatini),
   ("eth", Country.ethiopia),
   ("fsm", Country.federated_states_of_micronesia),
   ("fji", Country.fiji),
   ("fin", Country.finland),
   ("fra", Country.france),
   ("guf", Country.french_guiana),
   ("maf", Country.french_part_saint_martin),
   ("pyf", Country.french_polynesia),
   ("gab", Country.gabon),
   ("geo", Country.georgia),
   ("deu", Country.germany),
   ("gha", Country.ghana),
   ("gib", Country.gibraltar),
   ("grc", Country.greece),
   ("grl", Country.greenland),
   ("grd", Country.grenada),
   ("glp", Country.guadeloupe),
   ("gum", Country.guam),
   ("gtm", Country.guatemala),
   ("ggy", Country.guernsey),
   ("gin", Country.guinea),
   ("gnb", Country.guinea_bissau),
   ("guy", Country.guyana),
   ("hti", Country.haiti),
   ("hmd", Country.heard_island_and_mc_donald_islands),
   ("hnd", Country.honduras),
   ("hkg", Country.hong_kong),
   ("hun", Country.hungary),
   ("isl", Country.iceland),
   ("ind", Country.india),
   ("idn", Country.indonesia),
   ("irq", Country.iraq),
   ("irl", Country.ireland),
   ("irn", Country.islamic_republic_of_iran),
   ("imn", Country.isle_of_man),
   ("isr", Country.israel),
   ("ita", Country.italy),
   ("jam", Country.jamaica),
   ("jpn", Country.japan),
   ("jey", Country.jersey),
   ("jor", Country.jordan),
   ("kaz", Country.kazakhstan),
   ("ken", Country.kenya),
   ("xkx", Country.kosovo),
   ("kir", Country.kiribati),
   ("kwt", Country.kuwait),
   ("kgz", Country.kyrgyzstan),
   ("lva", Country.latvia),
   ("lbn", Country.lebanon),
   ("lso", Country.lesotho),
   ("lbr", Country.liberia),
   ("lby", Country.libya),
   ("lie", Country.liechtenstein),
   ("ltu", Country.lithuania),
   ("lux", Country.luxembourg),
   ("mac", Country.macao),
   ("mdg", Country.madagascar),
   ("mwi", Country.malawi),
   ("mys", Country.malaysia),
   ("mdv", Country.maldives),
   ("mli", Country.mali),
   ("mlt", Country.malta),
   ("mtq", Country.martinique),
   ("mrt", Country.mauritania),
   ("mus", Country.mauritius),
   ("myt", Country.mayotte),
   ("mex", Country.mexico),
   ("mco", Country.monaco),
   ("mng", Country.mongolia),
   ("mne", Country.montenegro),
   ("msr", Country.montserrat),
   ("mar", Country.morocco),
   ("moz", Country.mozambique),
   ("mmr", Country.myanmar),
   ("nam", Country.namibia),
   ("nru", Country.nauru),
   ("npl", Country.nepal),
   ("ncl", Country.new_caledonia),
   ("nzl", Country.new_zealand),
   ("nic", Country.nicaragua),
   ("nga", Country.nigeria),
   ("niu", Country.niue),
   ("nfk", Country.norfolk_island),
   ("nor", Country.norway),
   ("omn", Country.oman),
   ("pak", Country.pakistan),
   ("plw", Country.palau),
   ("pan", Country.panama),
   ("png", Country.papua_new_guinea),
   ("pry", Country.paraguay),
   ("per", Country.peru),
   ("pcn", Country.pitcairn),
   ("pol", Country.poland),
   ("prt", Country.portugal),
   ("pri", Country.puerto_rico),
   ("qat", Country.qatar),
   ("mkd", Country.republic_of_north_macedonia),
   ("reu", Country.reunion),
   ("rou", Country.romania),
   ("rwa", Country.rwanda),
   ("blm", Country.saint_barthelemy),
   ("kna", Country.saint_kitts_and_nevis),
   ("lca", Country.saint_lucia),
   ("spm", Country.saint_pierre_and_miquelon),
   ("vct", Country.saint_vincent_and_the_grenadines),
   ("wsm", Country.samoa),
   ("smr", Country.san_marino),
   ("stp", Country.sao_tome_and_principe),
   ("sau", Country.saudi_arabia),
   ("sen", Country.senegal),
   ("srb", Country.serbia),
   ("syc", Country.seychelles),
   ("sle", Country.sierra_leone),
   ("sgp", Country.singapore),
   ("svk", Country.slovakia),
   ("svn", Country.slovenia),
   ("slb", Country.solomon_islands),
   ("som", Country.somalia),
   ("zaf", Country.south_africa),
   ("sgs", Country.south_georgia_and_the_south_sandwich_islands),
   ("ssd", Country.south_sudan),
   ("esp", Country.spain),
   ("lka", Country.sri_lanka),
   ("pse", Country.state_of_palestine),
   ("sur", Country.suriname),
   ("sjm", Country.svalbard_and_jan_mayen),
   ("swe", Country.sweden),
   ("che", Country.switzerland),
   ("syr", Country.syrian_arab_republic),
   ("twn", Country.taiwan),
   ("tjk", Country.tajikistan),
   ("tha", Country.thailand),
   ("bhs", Country.the_bahamas),
   ("cym", Country.the_cayman_islands),
   ("caf", Country.the_central_african_republic),
   ("cck", Country.the_cocos_keeling_islands),
   ("com", Country.the_comoros),
   ("cog", Country.the_congo),
   ("cok", Country.the_cook_islands),
   ("prk", Country.the_democratic_peoples_republic_of_korea),
   ("cod", Country.the_democratic_republic_of_the_congo),
   ("dom", Country.the_dominican_republic),
   ("flk", Country.the_falkland_islands_malvinas),
   ("fro", Country.the_faroe_islands),
   ("atf", Country.the_french_southern_territories),
   ("gmb", Country.the_gambia),
   ("vat", Country.the_holy_see),
   ("lao", Country.the_lao_peoples_democratic_republic),
   ("mhl", Country.the_marshall_islands),
   ("nld", Country.the_netherlands),
   ("ner", Country.the_niger),
   ("mnp", Country.the_northern_mariana_islands),
   ("phl", Country.the_philippines),
   ("kor", Country.the_republic_of_korea),
   ("mda", Country.the_republic_of_moldova),
   ("rus", Country.the_russian_federation),
   ("sdn", Country.the_sudan),
   ("tca", Country.the_turks_and_caicos_islands),
   ("are", Country.the_united_arab_emirates),
   ("gbr", Country.the_united_kingdom_of_great_britain_and_northern_ireland),
   ("umi", Country.the_united_states_minor_outlying_islands),
   ("usa", Country.the_united_states_of_america),
   ("tls", Country.timor_leste),
   ("tgo", Country.togo),
   ("tkl", Country.tokelau),
   ("ton", Country.tonga),
   ("tto", Country.trinidad_and_tobago),
   ("tun", Country.tunisia),
   ("tur", Country.turkey),
   ("tkm", Country.turkmenistan),
   ("tuv", Country.tuvalu),
   ("vir", Country.us_virgin_islands),
   ("uga", Country.uganda),
   ("ukr", Country.ukraine),
   ("tza", Country.united_republic_of_tanzania),
   ("ury", Country.uruguay),
   ("uzb", Country.uzbekistan),
   ("vut", Country.vanuatu),
   ("vnm", Country.vietnam),
   ("wlf", Country.wallis_and_futuna),
   ("esh", Country.western_sahara),
   ("yem", Country.yemen),
   ("zmb", Country.zambia),
   ("zwe", Country.zimbabwe)]

/-- The `ALIASES` map of `Country::from_alias` (lib.rs lines 2763-2851). -/
def Country.ALIASES : List (String × Country) :=
  [("samoa", Country.american_samoa),
   ("sthelena", Country.ascension_and_tristan_da_cunha_saint_helena),
   ("sainthelena", Country.ascension_and_tristan_da_cunha_saint_helena),
   ("venezuela", Country.bolivarian_republic_of_venezuela),
   ("bosnia", Country.bosnia_and_herzegovina),
   ("herzegovina", Country.bosnia_and_herzegovina),
   ("brunei", Country.brunei_darussalam),
   ("burkina", Country.burkina_faso),
   ("stmaarten", Country.dutch_part_sint_maarten),
   ("saintmaarten", Country.dutch_part_sint_maarten),
   ("micronesia", Country.federated_states_of_micronesia),
   ("stmartin", Country.french_part_saint_martin),
   ("saintmartin", Country.french_part_saint_martin),
   ("heardisland", Country.heard_island_and_mc_donald_islands),
   ("mcdonaldislands", Country.heard_island_and_mc_donald_islands),
   ("iran", Country.islamic_republic_of_iran),
   ("macedonia", Country.republic_of_north_macedonia),
   ("stbarthelemy", Country.saint_barthelemy),
   ("stkitts", Country.saint_kitts_and_nevis),
   ("stlucia", Country.saint_lucia),
   ("stpierre", Country.saint_pierre_and_miquelon),
   ("saintpierre", Country.saint_pierre_and_miquelon),
   ("stvincent", Country.saint_vincent_and_the_grenadines),
   ("saintvincent", Country.saint_vincent_and_the_grenadines),
   ("saotome", Country.sao_tome_and_principe),
   ("southgeorgia", Country.south_georgia_and_the_south_sandwich_islands),
   ("southsandwichislands", Country.south_georgia_and_the_south_sandwich_islands),
   ("palestine", Country.state_of_palestine),
   ("taiwan", Country.taiwan),
   ("bahamas", Country.the_bahamas),
   ("caymanislands", Country.the_cayman_islands),
   ("centralafricanrepublic", Country.the_central_african_republic),
   ("cocosislands", Country.the_cocos_keeling_islands),
   ("keelingislands", Country.the_cocos_keeling_islands),
   ("comoros", Country.the_comoros),
   ("congo", Country.the_congo),
   ("cookislands", Country.the_cook_islands),
   ("czechrepublic", Country.czechia),
   ("northkorea", Country.the_democratic_peoples_republic_of_korea),
   ("democraticpeoplesrepublicofkorea", Country.the_democratic_peoples_republic_of_korea),
   ("democraticrepublicofthecongo", Country.the_democratic_republic_of_the_congo),
   ("dominicanrepublic", Country.the_dominican_republic),
   ("easttimor", Country.timor_leste),
   ("malvinas", Country.the_falkland_islands_malvinas),
   ("falklandislands", Country.the_falkland_islands_malvinas),
   ("faroeislands", Country.the_faroe_islands),
   ("frenchsouthernterritories", Country.the_french_southern_territories),
   ("gambia", Country.the_gambia),
   ("holysee", Country.the_holy_see),
   ("laopeoplesdemocraticrepublic", Country.the_lao_peoples_democratic_republic),
   ("marshallislands", Country.the_marshall_islands),
   ("netherlands", Country.the_netherlands),
   ("holland", Country.the_netherlands),
   ("niger", Country.the_niger),
   ("northernmarianaislands", Country.the_northern_mariana_islands),
   ("philippines", Country.the_philippines),
   ("southkorea", Country.the_republic_of_korea),
   ("republicofkorea", Country.the_republic_of_korea),
   ("moldova", Country.the_republic_of_moldova),
   ("republicofmoldova", Country.the_republic_of_moldova),
   ("russia", Country.the_russian_federation),
   ("russianfederation", Country.the_russian_federation),
   ("sudan", Country.the_sudan),
   ("turksandcaicosislands", Country.the_turks_and_caicos_islands),
   ("unitedarabemirates", Country.the_united_arab_emirates),
   ("england", Country.the_united_kingdom_of_great_britain_and_northern_ireland),
   ("scotland", Country.the_united_kingdom_of_great_britain_and_northern_ireland),
   ("greatbritain", Country.the_united_kingdom_of_great_britain_and_northern_ireland),
   ("unitedkingdom", Country.the_united_kingdom_of_great_britain_and_northern_ireland),
   ("northernireland", Country.the_united_kingdom_of_great_britain_and_northern_ireland),
   ("unitedkingdomofgreatbritain", Country.the_united_kingdom_of_great_britain_and_northern_ireland),
   ("unitedkingdomofgreatbritainandnorthernireland", Country.the_united_kingdom_of_great_britain_and_northern_ireland),
   ("unitedstatesminoroutlyingislands", Country.the_united_states_minor_outlying_islands),
   ("america", Country.the_united_states_of_america),
   ("unitedstates", Country.the_united_states_of_america),
   ("unitedstatesofamerica", Country.the_united_states_of_america),
   ("trinidad", Country.trinidad_and_tobago),
   ("tobago", Country.trinidad_and_tobago),
   ("tanzania", Country.united_republic_of_tanzania),
   ("türkiye", Country.turkey),
   ("turkey", Country.turkey)]

/-- The `NAMES` map of `Country::from_name` (lib.rs). -/
def Country.NAMES : List (String × Country) :=
  [("afghanistan", Country.afghanistan),
   ("alandislands", Country.aland_islands),
   ("albania", Country.albania),
   ("algeria", Country.algeria),
   ("americansamoa", Country.american_samoa),
   ("andorra", Country.andorra),
   ("angola", Country.angola),
   ("anguilla", Country.anguilla),
   ("antarctica", Country.antarctica),
   ("antiguaandbarbuda", Country.antigua_and_barbuda),
   ("argentina", Country.argentina),
   ("armenia", Country.armenia),
   ("aruba", Country.aruba),
   ("ascensionandtristandacunhasainthelena", Country.ascension_and_tristan_da_cunha_saint_helena),
   ("australia", Country.australia),
   ("austria", Country.austria),
   ("azerbaijan", Country.azerbaijan),
   ("bahrain", Country.bahrain),
   ("bangladesh", Country.bangladesh),
   ("barbados", Country.barbados),
   ("belarus", Country.belarus),
   ("belgium", Country.belgium),
   ("belize", Country.belize),
   ("benin", Country.benin),
   ("bermuda", Country.bermuda),
   ("bhutan", Country.bhutan),
   ("bolivarianrepublicofvenezuela", Country.bolivarian_republic_of_venezuela),
   ("bolivia", Country.bolivia),
   ("bonaire", Country.bonaire),
   ("bosniaandherzegovina", Country.bosnia_and_herzegovina),
   ("botswana", Country.botswana),
   ("bouvetisland", Country.bouvet_island),
   ("brazil", Country.brazil),
   ("britishindianoceanterritory", Country.british_indian_ocean_territory),
   ("britishvirginislands", Country.british_virgin_islands),
   ("bruneidarussalam", Country.brunei_darussalam),
   ("bulgaria", Country.bulgaria),
   ("burkinafaso", Country.burkina_faso),
   ("burundi", Country.burundi),
   ("caboverde", Country.cabo_verde),
   ("cambodia", Country.cambodia),
   ("cameroon", Country.cameroon),
   ("canada", Country.canada),
   ("chad", Country.chad),
   ("chile", Country.chile),
   ("china", Country.china),
   ("christmasisland", Country.christmas_island),
   ("colombia", Country.colombia),
   ("costarica", Country.costa_rica),
   ("cotedivoire", Country.coted_ivoire),
   ("croatia", Country.croatia),
   ("cuba", Country.cuba),
   ("curacao", Country.curacao),
   ("cyprus", Country.cyprus),
   ("czechia", Country.czechia),
   ("denmark", Country.denmark),
   ("djibouti", Country.djibouti),
   ("dominica", Country.dominica),
   ("dutchpartsintmaarten", Country.dutch_part_sint_maarten),
   ("ecuador", Country.ecuador),
   ("egypt", Country.egypt),
   ("elsalvador", Country.el_salvador),
   ("equatorialguinea", Country.equatorial_guinea),
   ("eritrea", Country.eritrea),
   ("estonia", Country.estonia),
   ("eswatini", Country.eswatini),
   ("ethiopia", Country.ethiopia),
   ("federatedstatesofmicronesia", Country.federated_states_of_micronesia),
   ("fiji", Country.fiji),
   ("finland", Country.finland),
   ("france", Country.france),
   ("frenchguiana", Country.french_guiana),
   ("frenchpartsaintmartin", Country.french_part_saint_martin),
   ("frenchpolynesia", Country.french_polynesia),
   ("gabon", Country.gabon),
   ("georgia", Country.georgia),
   ("germany", Country.germany),
   ("ghana", Country.ghana),
   ("gibraltar", Country.gibraltar),
   ("greece", Country.greece),
   ("greenland", Country.greenland),
   ("grenada", Country.grenada),
   ("guadeloupe", Country.guadeloupe),
   ("guam", Country.guam),
   ("guatemala", Country.guatemala),
   ("guernsey", Country.guernsey),
   ("guinea", Country.guinea),
   ("guineabissau", Country.guinea_bissau),
   ("guyana", Country.guyana),
   ("haiti", Country.haiti),
   ("heardislandandmcdonaldislands", Country.heard_island_and_mc_donald_islands),
   ("honduras", Country.honduras),
   ("hongkong", Country.hong_kong),
   ("hungary", Country.hungary),
   ("iceland", Country.iceland),
   ("india", Country.india),
   ("indonesia", Country.indonesia),
   ("iraq", Country.iraq),
   ("ireland", Country.ireland),
   ("islamicrepublicofiran", Country.islamic_republic_of_iran),
   ("isleofman", Country.isle_of_man),
   ("israel", Country.israel),
   ("italy", Country.italy),
   ("jamaica", Country.jamaica),
   ("japan", Country.japan),
   ("jersey", Country.jersey),
   ("jordan", Country.jordan),
   ("kazakhstan", Country.kazakhstan),
   ("kenya", Country.kenya),
   ("kiribati", Country.kiribati),
   ("kosovo", Country.kosovo),
   ("kuwait", Country.kuwait),
   ("kyrgyzstan", Country.kyrgyzstan),
   ("latvia", Country.latvia),
   ("lebanon", Country.lebanon),
   ("lesotho", Country.lesotho),
   ("liberia", Country.liberia),
   ("libya", Country.libya),
   ("liechtenstein", Country.liechtenstein),
   ("lithuania", Country.lithuania),
   ("luxembourg", Country.luxembourg),
   ("macao", Country.macao),
   ("madagascar", Country.madagascar),
   ("malawi", Country.malawi),
   ("malaysia", Country.malaysia),
   ("maldives", Country.maldives),
   ("mali", Country.mali),
   ("malta", Country.malta),
   ("martinique", Country.martinique),
   ("mauritania", Country.mauritania),
   ("mauritius", Country.mauritius),
   ("mayotte", Country.mayotte),
   ("mexico", Country.mexico),
   ("monaco", Country.monaco),
   ("mongolia", Country.mongolia),
   ("montenegro", Country.montenegro),
   ("montserrat", Country.montserrat),
   ("morocco", Country.morocco),
   ("mozambique", Country.mozambique),
   ("myanmar", Country.myanmar),
   ("namibia", Country.namibia),
   ("nauru", Country.nauru),
   ("nepal", Country.nepal),
   ("newcaledonia", Country.new_caledonia),
   ("newzealand", Country.new_zealand),
   ("nicaragua", Country.nicaragua),
   ("nigeria", Country.nigeria),
   ("niue", Country.niue),
   ("norfolkisland", Country.norfolk_island),
   ("norway", Country.norway),
   ("oman", Country.oman),
   ("pakistan", Country.pakistan),
   ("palau", Country.palau),
   ("panama", Country.panama),
   ("papuanewguinea", Country.papua_new_guinea),
   ("paraguay", Country.paraguay),
   ("peru", Country.peru),
   ("pitcairn", Country.pitcairn),
   ("poland", Country.poland),
   ("portugal", Country.portugal),
   ("puertorico", Country.puerto_rico),
   ("qatar", Country.qatar),
   ("republicofnorthmacedonia", Country.republic_of_north_macedonia),
   ("reunion", Country.reunion),
   ("romania", Country.romania),
   ("rwanda", Country.rwanda),
   ("saintbarthelemy", Country.saint_barthelemy),
   ("saintkittsandnevis", Country.saint_kitts_and_nevis),
   ("saintlucia", Country.saint_lucia),
   ("saintpierreandmiquelon", Country.saint_pierre_and_miquelon),
   ("saintvincentandthegrenadines", Country.saint_vincent_and_the_grenadines),
   ("samoa", Country.samoa),
   ("sanmarino", Country.san_marino),
   ("saotomeandprincipe", Country.sao_tome_and_principe),
   ("saudiarabia", Country.saudi_arabia),
   ("senegal", Country.senegal),
   ("serbia", Country.serbia),
   ("seychelles", Country.seychelles),
   ("sierraleone", Country.sierra_leone),
   ("singapore", Country.singapore),
   ("slovakia", Country.slovakia),
   ("slovenia", Country.slovenia),
   ("solomonislands", Country.solomon_islands),
   ("somalia", Country.somalia),
   ("southafrica", Country.south_africa),
   ("southgeorgiaandthesouthsandwichislands", Country.south_georgia_and_the_south_sandwich_islands),
   ("southsudan", Country.south_sudan),
   ("spain", Country.spain),
   ("srilanka", Country.sri_lanka),
   ("stateofpalestine", Country.state_of_palestine),
   ("suriname", Country.suriname),
   ("svalbardandjanmayen", Country.svalbard_and_jan_mayen),
   ("sweden", Country.sweden),
   ("switzerland", Country.switzerland),
   ("syrianarabrepublic", Country.syrian_arab_republic),
   ("taiwan,republicofchina", Country.taiwan),
   ("tajikistan", Country.tajikistan),
   ("thailand", Country.thailand),
   ("thebahamas", Country.the_bahamas),
   ("thecaymanislands", Country.the_cayman_islands),
   ("thecentralafricanrepublic", Country.the_central_african_republic),
   ("thecocoskeelingislands", Country.the_cocos_keeling_islands),
   ("thecomoros", Country.the_comoros),
   ("thecongo", Country.the_congo),
   ("thecookislands", Country.the_cook_islands),
   ("thedemocraticpeoplesrepublicofkorea", Country.the_democratic_peoples_republic_of_korea),
   ("thedemocraticrepublicofthecongo", Country.the_democratic_republic_of_the_congo),
   ("thedominicanrepublic", Country.the_dominican_republic),
   ("thefalklandislandsmalvinas", Country.the_falkland_islands_malvinas),
   ("thefaroeislands", Country.the_faroe_islands),
   ("thefrenchsouthernterritories", Country.the_french_southern_territories),
   ("thegambia", Country.the_gambia),
   ("theholysee", Country.the_holy_see),
   ("thelaopeoplesdemocraticrepublic", Country.the_lao_peoples_democratic_republic),
   ("themarshallislands", Country.the_marshall_islands),
   ("thenetherlands", Country.the_netherlands),
   ("theniger", Country.the_niger),
   ("thenorthernmarianaislands", Country.the_northern_mariana_islands),
   ("thephilippines", Country.the_philippines),
   ("therepublicofkorea", Country.the_republic_of_korea),
   ("therepublicofmoldova", Country.the_republic_of_moldova),
   ("therussianfederation", Country.the_russian_federation),
   ("thesudan", Country.the_sudan),
   ("theturksandcaicosislands", Country.the_turks_and_caicos_islands),
   ("theunitedarabemirates", Country.the_united_arab_emirates),
   ("theunitedkingdomofgreatbritainandnorthernireland", Country.the_united_kingdom_of_great_britain_and_northern_ireland),
   ("theunitedstatesminoroutlyingislands", Country.the_united_states_minor_outlying_islands),
   ("theunitedstatesofamerica", Country.the_united_states_of_america),
   ("timorleste", Country.timor_leste),
   ("easttimor", Country.timor_leste),
   ("togo", Country.togo),
   ("tokelau", Country.tokelau),
   ("tonga", Country.tonga),
   ("trinidadandtobago", Country.trinidad_and_tobago),
   ("tunisia", Country.tunisia),
   ("turkey", Country.turkey),
   ("türkiye", Country.turkey),
   ("turkmenistan", Country.turkmenistan),
   ("tuvalu", Country.tuvalu),
   ("usvirginislands", Country.us_virgin_islands),
   ("uganda", Country.uganda),
   ("ukraine", Country.ukraine),
   ("unitedrepublicoftanzania", Country.united_republic_of_tanzania),
   ("uruguay", Country.uruguay),
   ("uzbekistan", Country.uzbekistan),
   ("vanuatu", Country.vanuatu),
   ("vietnam", Country.vietnam),
   ("wallisandfutuna", Country.wallis_and_futuna),
   ("westernsahara", Country.western_sahara),
   ("yemen", Country.yemen),
   ("zambia", Country.zambia),
   ("zimbabwe", Country.zimbabwe)]

/-- The `CODES` map of the `FromStr` impl for `Country` (lib.rs lines 3142-4318). -/
def Country.FROM_STR_CODES : List (String × Country) :=
  [("afghanistan", Country.afghanistan),
   ("004", Country.afghanistan),
   ("af", Country.afghanistan),
   ("afg", Country.afghanistan),
   ("alandislands", Country.aland_islands),
   ("aland_islands", Country.aland_islands),
   ("248", Country.aland_islands),
   ("ax", Country.aland_islands),
   ("ala", Country.aland_islands),
   ("albania", Country.albania),
   ("008", Country.albania),
   ("al", Country.albania),
   ("alb", Country.albania),
   ("algeria", Country.algeria),
   ("012", Country.algeria),
   ("dz", Country.algeria),
   ("dza", Country.algeria),
   ("americansamoa", Country.american_samoa),
   ("american_samoa", Country.american_samoa),
   ("016", Country.american_samoa),
   ("as", Country.american_samoa),
   ("asm", Country.american_samoa),
   ("andorra", Country.andorra),
   ("020", Country.andorra),
   ("ad", Country.andorra),
   ("and", Country.andorra),
   ("angola", Country.angola),
   ("024", Country.angola),
   ("ao", Country.angola),
   ("ago", Country.angola),
   ("anguilla", Country.anguilla),
   ("660", Country.anguilla),
   ("ai", Country.anguilla),
   ("aia", Country.anguilla),
   ("antarctica", Country.antarctica),
   ("010", Country.antarctica),
   ("aq", Country.antarctica),
   ("ata", Country.antarctica),
   ("antiguaandbarbuda", Country.antigua_and_barbuda),
   ("antigua_and_barbuda", Country.antigua_and_barbuda),
   ("028", Country.antigua_and_barbuda),
   ("ag", Country.antigua_and_barbuda),
   ("atg", Country.antigua_and_barbuda),
   ("argentina", Country.argentina),
   ("032", Country.argentina),
   ("ar", Country.argentina),
   ("arg", Country.argentina),
   ("armenia", Country.armenia),
   ("051", Country.armenia),
   ("am", Country.armenia),
   ("arm", Country.armenia),
   ("aruba", Country.aruba),
   ("533", Country.aruba),
   ("aw", Country.aruba),
   ("abw", Country.aruba),
   ("ascensionandtristandacunhasainthelena", Country.ascension_and_tristan_da_cunha_saint_helena),
   ("ascension_and_tristan_da_cunha_saint_helena", Country.ascension_and_tristan_da_cunha_saint_helena),
   ("654", Country.ascension_and_tristan_da_cunha_saint_helena),
   ("sh", Country.ascension_and_tristan_da_cunha_saint_helena),
   ("shn", Country.ascension_and_tristan_da_cunha_saint_helena),
   ("sthelena", Country.ascension_and_tristan_da_cunha_saint_helena),
   ("sainthelena", Country.ascension_and_tristan_da_cunha_saint_helena),
   ("australia", Country.australia),
   ("036", Country.australia),
   ("au", Country.australia),
   ("aus", Country.australia),
   ("austria", Country.austria),
   ("040", Country.austria),
   ("at", Country.austria),
   ("aut", Country.austria),
   ("azerbaijan", Country.azerbaijan),
   ("031", Country.azerbaijan),
   ("az", Country.azerbaijan),
   ("aze", Country.azerbaijan),
   ("bahrain", Country.bahrain),
   ("048", Country.bahrain),
   ("bh", Country.bahrain),
   ("bhr", Country.bahrain),
   ("bangladesh", Country.bangladesh),
   ("050", Country.bangladesh),
   ("bd", Country.bangladesh),
   ("bgd", Country.bangladesh),
   ("barbados", Country.barbados),
   ("052", Country.barbados),
   ("bb", Country.barbados),
   ("brb", Country.barbados),
   ("belarus", Country.belarus),
   ("112", Country.belarus),
   ("by", Country.belarus),
   ("blr", Country.belarus),
   ("belgium", Country.belgium),
   ("056", Country.belgium),
   ("be", Country.belgium),
   ("bel", Country.belgium),
   ("belize", Country.belize),
   ("084", Country.belize),
   ("bz", Country.belize),
   ("blz", Country.belize),
   ("benin", Country.benin),
   ("204", Country.benin),
   ("bj", Country.benin),
   ("ben", Country.benin),
   ("bermuda", Country.bermuda),
   ("060", Country.bermuda),
   ("bm", Country.bermuda),
   ("bmu", Country.bermuda),
   ("bhutan", Country.bhutan),
   ("064", Country.bhutan),
   ("bt", Country.bhutan),
   ("btn", Country.bhutan),
   ("bolivarianrepublicofvenezuela", Country.bolivarian_republic_of_venezuela),
   ("bolivarian_republic_of_venezuela", Country.bolivarian_republic_of_venezuela),
   ("862", Country.bolivarian_republic_of_venezuela),
   ("ve", Country.bolivarian_republic_of_venezuela),
   ("ven", Country.bolivarian_republic_of_venezuela),
   ("venezuela", Country.bolivarian_republic_of_venezuela),
   ("bolivia", Country.bolivia),
   ("068", Country.bolivia),
   ("bo", Country.bolivia),
   ("bol", Country.bolivia),
   ("bonaire", Country.bonaire),
   ("535", Country.bonaire),
   ("bq", Country.bonaire),
   ("bes", Country.bonaire),
   ("bosniaandherzegovina", Country.bosnia_and_herzegovina),
   ("bosnia_and_herzegovina", Country.bosnia_and_herzegovina),
   ("070", Country.bosnia_and_herzegovina),
   ("ba", Country.bosnia_and_herzegovina),
   ("bih", Country.bosnia_and_herzegovina),
   ("bosnia", Country.bosnia_and_herzegovina),
   ("herzegovina", Country.bosnia_and_herzegovina),
   ("botswana", Country.botswana),
   ("072", Country.botswana),
   ("bw", Country.botswana),
   ("bwa", Country.botswana),
   ("bouvetisland", Country.bouvet_island),
   ("bouvet_island", Country.bouvet_island),
   ("074", Country.bouvet_island),
   ("bv", Country.bouvet_island),
   ("bvt", Country.bouvet_island),
   ("brazil", Country.brazil),
   ("076", Country.brazil),
   ("br", Country.brazil),
   ("bra", Country.brazil),
   ("britishindianoceanterritory", Country.british_indian_ocean_territory),
   ("british_indian_ocean_territory", Country.british_indian_ocean_territory),
   ("086", Country.british_indian_ocean_territory),
   ("io", Country.british_indian_ocean_territory),
   ("iot", Country.british_indian_ocean_territory),
   ("britishvirginislands", Country.british_virgin_islands),
   ("british_virgin_islands", Country.british_virgin_islands),
   ("092", Country.british_virgin_islands),
   ("vg", Country.british_virgin_islands),
   ("vgb", Country.british_virgin_islands),
   ("bruneidarussalam", Country.brunei_darussalam),
   ("brunei_darussalam", Country.brunei_darussalam),
   ("096", Country.brunei_darussalam),
   ("bn", Country.brunei_darussalam),
   ("brn", Country.brunei_darussalam),
   ("brunei", Country.brunei_darussalam),
   ("bulgaria", Country.bulgaria),
   ("100", Country.bulgaria),
   ("bg", Country.bulgaria),
   ("bgr", Country.bulgaria),
   ("burkinafaso", Country.burkina_faso),
   ("burkina_faso", Country.burkina_faso),
   ("854", Country.burkina_faso),
   ("bf", Country.burkina_faso),
   ("bfa", Country.burkina_faso),
   ("burkina", Country.burkina_faso),
   ("burundi", Country.burundi),
   ("108", Country.burundi),
   ("bi", Country.burundi),
   ("bdi", Country.burundi),
   ("caboverde", Country.cabo_verde),
   ("cabo_verde", Country.cabo_verde),
   ("132", Country.cabo_verde),
   ("cv", Country.cabo_verde),
   ("cpv", Country.cabo_verde),
   ("cambodia", Country.cambodia),
   ("116", Country.cambodia),
   ("kh", Country.cambodia),
   ("khm", Country.cambodia),
   ("cameroon", Country.cameroon),
   ("120", Country.cameroon),
   ("cm", Country.cameroon),
   ("cmr", Country.cameroon),
   ("canada", Country.canada),
   ("124", Country.canada),
   ("ca", Country.canada),
   ("can", Country.canada),
   ("chad", Country.chad),
   ("148", Country.chad),
   ("td", Country.chad),
   ("tcd", Country.chad),
   ("chile", Country.chile),
   ("152", Country.chile),
   ("cl", Country.chile),
   ("chl", Country.chile),
   ("china", Country.china),
   ("156", Country.china),
   ("cn", Country.china),
   ("chn", Country.china),
   ("christmasisland", Country.christmas_island),
   ("christmas_island", Country.christmas_island),
   ("162", Country.christmas_island),
   ("cx", Country.christmas_island),
   ("cxr", Country.christmas_island),
   ("colombia", Country.colombia),
   ("170", Country.colombia),
   ("co", Country.colombia),
   ("col", Country.colombia),
   ("costarica", Country.costa_rica),
   ("costa_rica", Country.costa_rica),
   ("188", Country.costa_rica),
   ("cr", Country.costa_rica),
   ("cri", Country.costa_rica),
   ("cotedivoire", Country.coted_ivoire),
   ("coted_ivoire", Country.coted_ivoire),
   ("384", Country.coted_ivoire),
   ("ci", Country.coted_ivoire),
   ("civ", Country.coted_ivoire),
   ("croatia", Country.croatia),
   ("191", Country.croatia),
   ("hr", Country.croatia),
   ("hrv", Country.croatia),
   ("cuba", Country.cuba),
   ("192", Country.cuba),
   ("cu", Country.cuba),
   ("cub", Country.cuba),
   ("curacao", Country.curacao),
   ("531", Country.curacao),
   ("cw", Country.curacao),
   ("cuw", Country.curacao),
   ("cyprus", Country.cyprus),
   ("196", Country.cyprus),
   ("cy", Country.cyprus),
   ("cyp", Country.cyprus),
   ("czechia", Country.czechia),
   ("czechrepublic", Country.czechia),
   ("203", Country.czechia),
   ("cz", Country.czechia),
   ("cze", Country.czechia),
   ("denmark", Country.denmark),
   ("208", Country.denmark),
   ("dk", Country.denmark),
   ("dnk", Country.denmark),
   ("djibouti", Country.djibouti),
   ("262", Country.djibouti),
   ("dj", Country.djibouti),
   ("dji", Country.djibouti),
   ("dominica", Country.dominica),
   ("212", Country.dominica),
   ("dm", Country.dominica),
   ("dma", Country.dominica),
   ("dutchpartsintmaarten", Country.dutch_part_sint_maarten),
   ("dutch_part_sint_maarten", Country.dutch_part_sint_maarten),
   ("534", Country.dutch_part_sint_maarten),
   ("sx", Country.dutch_part_sint_maarten),
   ("sxm", Country.dutch_part_sint_maarten),
   ("stmaarten", Country.dutch_part_sint_maarten),
   ("sintmaarten", Country.dutch_part_sint_maarten),
   ("ecuador", Country.ecuador),
   ("218", Country.ecuador),
   ("ec", Country.ecuador),
   ("ecu", Country.ecuador),
   ("egypt", Country.egypt),
   ("818", Country.egypt),
   ("eg", Country.egypt),
   ("egy", Country.egypt),
   ("elsalvador", Country.el_salvador),
   ("el_salvador", Country.el_salvador),
   ("222", Country.el_salvador),
   ("sv", Country.el_salvador),
   ("slv", Country.el_salvador),
   ("equatorialguinea", Country.equatorial_guinea),
   ("equatorial_guinea", Country.equatorial_guinea),
   ("226", Country.equatorial_guinea),
   ("gq", Country.equatorial_guinea),
   ("gnq", Country.equatorial_guinea),
   ("eritrea", Country.eritrea),
   ("232", Country.eritrea),
   ("er", Country.eritrea),
   ("eri", Country.eritrea),
   ("estonia", Country.estonia),
   ("233", Country.estonia),
   ("ee", Country.estonia),
   ("est", Country.estonia),
   ("eswatini", Country.eswatini),
   ("748", Country.eswatini),
   ("sz", Country.eswatini),
   ("swz", Country.eswatini),
   ("ethiopia", Country.ethiopia),
   ("231", Country.ethiopia),
   ("et", Country.ethiopia),
   ("eth", Country.ethiopia),
   ("federatedstatesofmicronesia", Country.federated_states_of_micronesia),
   ("federated_states_of_micronesia", Country.federated_states_of_micronesia),
   ("583", Country.federated_states_of_micronesia),
   ("fm", Country.federated_states_of_micronesia),
   ("fsm", Country.federated_states_of_micronesia),
   ("micronesia", Country.federated_states_of_micronesia),
   ("fiji", Country.fiji),
   ("242", Country.fiji),
   ("fj", Country.fiji),
   ("fji", Country.fiji),
   ("finland", Country.finland),
   ("246", Country.finland),
   ("fi", Country.finland),
   ("fin", Country.finland),
   ("france", Country.france),
   ("250", Country.france),
   ("fr", Country.france),
   ("fra", Country.france),
   ("frenchguiana", Country.french_guiana),
   ("french_guiana", Country.french_guiana),
   ("254", Country.french_guiana),
   ("gf", Country.french_guiana),
   ("guf", Country.french_guiana),
   ("frenchpartsaintmartin", Country.french_part_saint_martin),
   ("french_part_saint_martin", Country.french_part_saint_martin),
   ("663", Country.french_part_saint_martin),
   ("mf", Country.french_part_saint_martin),
   ("maf", Country.french_part_saint_martin),
   ("stmartin", Country.french_part_saint_martin),
   ("saintmartin", Country.french_part_saint_martin),
   ("frenchpolynesia", Country.french_polynesia),
   ("258", Country.french_polynesia),
   ("pf", Country.french_polynesia),
   ("pyf", Country.french_polynesia),
   ("gabon", Country.gabon),
   ("266", Country.gabon),
   ("ga", Country.gabon),
   ("gab", Country.gabon),
   ("georgia", Country.georgia),
   ("268", Country.georgia),
   ("ge", Country.georgia),
   ("geo", Country.georgia),
   ("germany", Country.germany),
   ("276", Country.germany),
   ("de", Country.germany),
   ("deu", Country.germany),
   ("ghana", Country.ghana),
   ("288", Country.ghana),
   ("gh", Country.ghana),
   ("gha", Country.ghana),
   ("gibraltar", Country.gibraltar),
   ("292", Country.gibraltar),
   ("gi", Country.gibraltar),
   ("gib", Country.gibraltar),
   ("greece", Country.greece),
   ("300", Country.greece),
   ("gr", Country.greece),
   ("grc", Country.greece),
   ("greenland", Country.greenland),
   ("304", Country.greenland),
   ("gl", Country.greenland),
   ("grl", Country.greenland),
   ("grenada", Country.grenada),
   ("308", Country.grenada),
   ("gd", Country.grenada),
   ("grd", Country.grenada),
   ("guadeloupe", Country.guadeloupe),
   ("312", Country.guadeloupe),
   ("gp", Country.guadeloupe),
   ("glp", Country.guadeloupe),
   ("guam", Country.guam),
   ("316", Country.guam),
   ("gu", Country.guam),
   ("gum", Country.guam),
   ("guatemala", Country.guatemala),
   ("320", Country.guatemala),
   ("gt", Country.guatemala),
   ("gtm", Country.guatemala),
   ("guernsey", Country.guernsey),
   ("831", Country.guernsey),
   ("gg", Country.guernsey),
   ("ggy", Country.guernsey),
   ("guinea", Country.guinea),
   ("324", Country.guinea),
   ("gn", Country.guinea),
   ("gin", Country.guinea),
   ("guineabissau", Country.guinea_bissau),
   ("guinea_bissau", Country.guinea_bissau),
   ("624", Country.guinea_bissau),
   ("gw", Country.guinea_bissau),
   ("gnb", Country.guinea_bissau),
   ("guyana", Country.guyana),
   ("328", Country.guyana),
   ("gy", Country.guyana),
   ("guy", Country.guyana),
   ("haiti", Country.haiti),
   ("332", Country.haiti),
   ("ht", Country.haiti),
   ("hti", Country.haiti),
   ("heardislandandmcdonaldislands", Country.heard_island_and_mc_donald_islands),
   ("heard_island_and_mc_donald_islands", Country.heard_island_and_mc_donald_islands),
   ("334", Country.heard_island_and_mc_donald_islands),
   ("hm", Country.heard_island_and_mc_donald_islands),
   ("hmd", Country.heard_island_and_mc_donald_islands),
   ("heardisland", Country.heard_island_and_mc_donald_islands),
   ("mcdonaldislands", Country.heard_island_and_mc_donald_islands),
   ("honduras", Country.honduras),
   ("340", Country.honduras),
   ("hn", Country.honduras),
   ("hnd", Country.honduras),
   ("hongkong", Country.hong_kong),
   ("hong_kong", Country.hong_kong),
   ("344", Country.hong_kong),
   ("hk", Country.hong_kong),
   ("hkg", Country.hong_kong),
   ("hungary", Country.hungary),
   ("348", Country.hungary),
   ("hu", Country.hungary),
   ("hun", Country.hungary),
   ("iceland", Country.iceland),
   ("352", Country.iceland),
   ("is", Country.iceland),
   ("isl", Country.iceland),
   ("india", Country.india),
   ("356", Country.india),
   ("in", Country.india),
   ("ind", Country.india),
   ("indonesia", Country.indonesia),
   ("360", Country.indonesia),
   ("id", Country.indonesia),
   ("idn", Country.indonesia),
   ("iraq", Country.iraq),
   ("368", Country.iraq),
   ("iq", Country.iraq),
   ("irq", Country.iraq),
   ("ireland", Country.ireland),
   ("372", Country.ireland),
   ("ie", Country.ireland),
   ("irl", Country.ireland),
   ("islamicrepublicofiran", Country.islamic_republic_of_iran),
   ("islamic_republic_of_iran", Country.islamic_republic_of_iran),
   ("364", Country.islamic_republic_of_iran),
   ("ir", Country.islamic_republic_of_iran),
   ("irn", Country.islamic_republic_of_iran),
   ("iran", Country.islamic_republic_of_iran),
   ("isleofman", Country.isle_of_man),
   ("isle_of_man", Country.isle_of_man),
   ("833", Country.isle_of_man),
   ("im", Country.isle_of_man),
   ("imn", Country.isle_of_man),
   ("israel", Country.israel),
   ("376", Country.israel),
   ("il", Country.israel),
   ("isr", Country.israel),
   ("italy", Country.italy),
   ("380", Country.italy),
   ("it", Country.italy),
   ("ita", Country.italy),
   ("jamaica", Country.jamaica),
   ("388", Country.jamaica),
   ("jm", Country.jamaica),
   ("jam", Country.jamaica),
   ("japan", Country.japan),
   ("392", Country.japan),
   ("jp", Country.japan),
   ("jpn", Country.japan),
   ("jersey", Country.jersey),
   ("832", Country.jersey),
   ("je", Country.jersey),
   ("jey", Country.jersey),
   ("jordan", Country.jordan),
   ("400", Country.jordan),
   ("jo", Country.jordan),
   ("jor", Country.jordan),
   ("kazakhstan", Country.kazakhstan),
   ("398", Country.kazakhstan),
   ("kz", Country.kazakhstan),
   ("kaz", Country.kazakhstan),
   ("kenya", Country.kenya),
   ("404", Country.kenya),
   ("ke", Country.kenya),
   ("ken", Country.kenya),
   ("kiribati", Country.kiribati),
   ("296", Country.kiribati),
   ("ki", Country.kiribati),
   ("kir", Country.kiribati),
   ("kosovo", Country.kosovo),
   ("383", Country.kosovo),
   ("xk", Country.kosovo),
   ("xkx", Country.kosovo),
   ("kuwait", Country.kuwait),
   ("414", Country.kuwait),
   ("kw", Country.kuwait),
   ("kwt", Country.kuwait),
   ("kyrgyzstan", Country.kyrgyzstan),
   ("417", Country.kyrgyzstan),
   ("kg", Country.kyrgyzstan),
   ("kgz", Country.kyrgyzstan),
   ("latvia", Country.latvia),
   ("428", Country.latvia),
   ("lv", Country.latvia),
   ("lva", Country.latvia),
   ("lebanon", Country.lebanon),
   ("422", Country.lebanon),
   ("lb", Country.lebanon),
   ("lbn", Country.lebanon),
   ("lesotho", Country.lesotho),
   ("426", Country.lesotho),
   ("ls", Country.lesotho),
   ("lso", Country.lesotho),
   ("liberia", Country.liberia),
   ("430", Country.liberia),
   ("lr", Country.liberia),
   ("lbr", Country.liberia),
   ("libya", Country.libya),
   ("434", Country.libya),
   ("ly", Country.libya),
   ("lby", Country.libya),
   ("liechtenstein", Country.liechtenstein),
   ("438", Country.liechtenstein),
   ("li", Country.liechtenstein),
   ("lie", Country.liechtenstein),
   ("lithuania", Country.lithuania),
   ("440", Country.lithuania),
   ("lt", Country.lithuania),
   ("ltu", Country.lithuania),
   ("luxembourg", Country.luxembourg),
   ("442", Country.luxembourg),
   ("lu", Country.luxembourg),
   ("lux", Country.luxembourg),
   ("macao", Country.macao),
   ("446", Country.macao),
   ("mo", Country.macao),
   ("mac", Country.macao),
   ("madagascar", Country.madagascar),
   ("450", Country.madagascar),
   ("mg", Country.madagascar),
   ("mdg", Country.madagascar),
   ("malawi", Country.malawi),
   ("454", Country.malawi),
   ("mw", Country.malawi),
   ("mwi", Country.malawi),
   ("malaysia", Country.malaysia),
   ("458", Country.malaysia),
   ("my", Country.malaysia),
   ("mys", Country.malaysia),
   ("maldives", Country.maldives),
   ("462", Country.maldives),
   ("mv", Country.maldives),
   ("mdv", Country.maldives),
   ("mali", Country.mali),
   ("466", Country.mali),
   ("ml", Country.mali),
   ("mli", Country.mali),
   ("malta", Country.malta),
   ("470", Country.malta),
   ("mt", Country.malta),
   ("mlt", Country.malta),
   ("martinique", Country.martinique),
   ("474", Country.martinique),
   ("mq", Country.martinique),
   ("mtq", Country.martinique),
   ("mauritania", Country.mauritania),
   ("478", Country.mauritania),
   ("mr", Country.mauritania),
   ("mrt", Country.mauritania),
   ("mauritius", Country.mauritius),
   ("480", Country.mauritius),
   ("mu", Country.mauritius),
   ("mus", Country.mauritius),
   ("mayotte", Country.mayotte),
   ("175", Country.mayotte),
   ("yt", Country.mayotte),
   ("myt", Country.mayotte),
   ("mexico", Country.mexico),
   ("484", Country.mexico),
   ("mx", Country.mexico),
   ("mex", Country.mexico),
   ("monaco", Country.monaco),
   ("492", Country.monaco),
   ("mc", Country.monaco),
   ("mco", Country.monaco),
   ("mongolia", Country.mongolia),
   ("496", Country.mongolia),
   ("mn", Country.mongolia),
   ("mng", Country.mongolia),
   ("montenegro", Country.montenegro),
   ("499", Country.montenegro),
   ("me", Country.montenegro),
   ("mne", Country.montenegro),
   ("montserrat", Country.montserrat),
   ("500", Country.montserrat),
   ("ms", Country.montserrat),
   ("msr", Country.montserrat),
   ("morocco", Country.morocco),
   ("504", Country.morocco),
   ("ma", Country.morocco),
   ("mar", Country.morocco),
   ("mozambique", Country.mozambique),
   ("508", Country.mozambique),
   ("mz", Country.mozambique),
   ("moz", Country.mozambique),
   ("myanmar", Country.myanmar),
   ("104", Country.myanmar),
   ("mm", Country.myanmar),
   ("mmr", Country.myanmar),
   ("namibia", Country.namibia),
   ("516", Country.namibia),
   ("na", Country.namibia),
   ("nam", Country.namibia),
   ("nauru", Country.nauru),
   ("520", Country.nauru),
   ("nr", Country.nauru),
   ("nru", Country.nauru),
   ("nepal", Country.nepal),
   ("524", Country.nepal),
   ("np", Country.nepal),
   ("npl", Country.nepal),
   ("newcaledonia", Country.new_caledonia),
   ("new_caledonia", Country.new_caledonia),
   ("540", Country.new_caledonia),
   ("nc", Country.new_caledonia),
   ("ncl", Country.new_caledonia),
   ("newzealand", Country.new_zealand),
   ("new_zealand", Country.new_zealand),
   ("554", Country.new_zealand),
   ("nz", Country.new_zealand),
   ("nzl", Country.new_zealand),
   ("nicaragua", Country.nicaragua),
   ("558", Country.nicaragua),
   ("ni", Country.nicaragua),
   ("nic", Country.nicaragua),
   ("nigeria", Country.nigeria),
   ("566", Country.nigeria),
   ("ng", Country.nigeria),
   ("nga", Country.nigeria),
   ("niue", Country.niue),
   ("570", Country.niue),
   ("nu", Country.niue),
   ("niu", Country.niue),
   ("norfolkisland", Country.norfolk_island),
   ("norfolk_island", Country.norfolk_island),
   ("574", Country.norfolk_island),
   ("nf", Country.norfolk_island),
   ("nfk", Country.norfolk_island),
   ("norway", Country.norway),
   ("578", Country.norway),
   ("no", Country.norway),
   ("nor", Country.norway),
   ("oman", Country.oman),
   ("512", Country.oman),
   ("om", Country.oman),
   ("omn", Country.oman),
   ("pakistan", Country.pakistan),
   ("586", Country.pakistan),
   ("pk", Country.pakistan),
   ("pak", Country.pakistan),
   ("palau", Country.palau),
   ("585", Country.palau),
   ("pw", Country.palau),
   ("plw", Country.palau),
   ("panama", Country.panama),
   ("591", Country.panama),
   ("pa", Country.panama),
   ("pan", Country.panama),
   ("papuanewguinea", Country.papua_new_guinea),
   ("papua_new_guinea", Country.papua_new_guinea),
   ("598", Country.papua_new_guinea),
   ("pg", Country.papua_new_guinea),
   ("png", Country.papua_new_guinea),
   ("paraguay", Country.paraguay),
   ("600", Country.paraguay),
   ("py", Country.paraguay),
   ("pry", Country.paraguay),
   ("peru", Country.peru),
   ("604", Country.peru),
   ("pe", Country.peru),
   ("per", Country.peru),
   ("pitcairn", Country.pitcairn),
   ("612", Country.pitcairn),
   ("pn", Country.pitcairn),
   ("pcn", Country.pitcairn),
   ("poland", Country.poland),
   ("616", Country.poland),
   ("pl", Country.poland),
   ("pol", Country.poland),
   ("portugal", Country.portugal),
   ("620", Country.portugal),
   ("pt", Country.portugal),
   ("prt", Country.portugal),
   ("puertorico", Country.puerto_rico),
   ("puerto_rico", Country.puerto_rico),
   ("630", Country.puerto_rico),
   ("pr", Country.puerto_rico),
   ("pri", Country.puerto_rico),
   ("qatar", Country.qatar),
   ("634", Country.qatar),
   ("qa", Country.qatar),
   ("qat", Country.qatar),
   ("republicofnorthmacedonia", Country.republic_of_north_macedonia),
   ("republic_of_north_macedonia", Country.republic_of_north_macedonia),
   ("807", Country.republic_of_north_macedonia),
   ("mk", Country.republic_of_north_macedonia),
   ("mkd", Country.republic_of_north_macedonia),
   ("macedonia", Country.republic_of_north_macedonia),
   ("reunion", Country.reunion),
   ("638", Country.reunion),
   ("re", Country.reunion),
   ("reu", Country.reunion),
   ("romania", Country.romania),
   ("642", Country.romania),
   ("ro", Country.romania),
   ("rou", Country.romania),
   ("rwanda", Country.rwanda),
   ("646", Country.rwanda),
   ("rw", Country.rwanda),
   ("rwa", Country.rwanda),
   ("saintbarthelemy", Country.saint_barthelemy),
   ("saint_barthelemy", Country.saint_barthelemy),
   ("652", Country.saint_barthelemy),
   ("bl", Country.saint_barthelemy),
   ("blm", Country.saint_barthelemy),
   ("stbarthelemy", Country.saint_barthelemy),
   ("saintkittsandnevis", Country.saint_kitts_and_nevis),
   ("saint_kitts_and_nevis", Country.saint_kitts_and_nevis),
   ("659", Country.saint_kitts_and_nevis),
   ("kn", Country.saint_kitts_and_nevis),
   ("kna", Country.saint_kitts_and_nevis),
   ("stkitts", Country.saint_kitts_and_nevis),
   ("saintlucia", Country.saint_lucia),
   ("saint_lucia", Country.saint_lucia),
   ("662", Country.saint_lucia),
   ("lc", Country.saint_lucia),
   ("lca", Country.saint_lucia),
   ("stlucia", Country.saint_lucia),
   ("saintpierreandmiquelon", Country.saint_pierre_and_miquelon),
   ("saint_pierre_and_miquelon", Country.saint_pierre_and_miquelon),
   ("666", Country.saint_pierre_and_miquelon),
   ("pm", Country.saint_pierre_and_miquelon),
   ("spm", Country.saint_pierre_and_miquelon),
   ("stpierre", Country.saint_pierre_and_miquelon),
   ("saintpierre", Country.saint_pierre_and_miquelon),
   ("saintvincentandthegrenadines", Country.saint_vincent_and_the_grenadines),
   ("saint_vincent_and_the_grenadines", Country.saint_vincent_and_the_grenadines),
   ("670", Country.saint_vincent_and_the_grenadines),
   ("vc", Country.saint_vincent_and_the_grenadines),
   ("vct", Country.saint_vincent_and_the_grenadines),
   ("stvincent", Country.saint_vincent_and_the_grenadines),
   ("saintvincent", Country.saint_vincent_and_the_grenadines),
   ("samoa", Country.samoa),
   ("882", Country.samoa),
   ("ws", Country.samoa),
   ("wsm", Country.samoa),
   ("sanmarino", Country.san_marino),
   ("san_marino", Country.san_marino),
   ("674", Country.san_marino),
   ("sm", Country.san_marino),
   ("smr", Country.san_marino),
   ("saotomeandprincipe", Country.sao_tome_and_principe),
   ("sao_tome_and_principe", Country.sao_tome_and_principe),
   ("678", Country.sao_tome_and_principe),
   ("st", Country.sao_tome_and_principe),
   ("stp", Country.sao_tome_and_principe),
   ("saotome", Country.sao_tome_and_principe),
   ("saudiarabia", Country.saudi_arabia),
   ("saudi_arabia", Country.saudi_arabia),
   ("682", Country.saudi_arabia),
   ("sa", Country.saudi_arabia),
   ("sau", Country.saudi_arabia),
   ("senegal", Country.senegal),
   ("686", Country.senegal),
   ("sn", Country.senegal),
   ("sen", Country.senegal),
   ("serbia", Country.serbia),
   ("688", Country.serbia),
   ("rs", Country.serbia),
   ("srb", Country.serbia),
   ("seychelles", Country.seychelles),
   ("690", Country.seychelles),
   ("sc", Country.seychelles),
   ("syc", Country.seychelles),
   ("sierraleone", Country.sierra_leone),
   ("sierra_leone", Country.sierra_leone),
   ("694", Country.sierra_leone),
   ("sl", Country.sierra_leone),
   ("sle", Country.sierra_leone),
   ("singapore", Country.singapore),
   ("702", Country.singapore),
   ("sg", Country.singapore),
   ("sgp", Country.singapore),
   ("slovakia", Country.slovakia),
   ("703", Country.slovakia),
   ("sk", Country.slovakia),
   ("svk", Country.slovakia),
   ("slovenia", Country.slovenia),
   ("705", Country.slovenia),
   ("si", Country.slovenia),
   ("svn", Country.slovenia),
   ("solomonislands", Country.solomon_islands),
   ("solomon_islands", Country.solomon_islands),
   ("090", Country.solomon_islands),
   ("sb", Country.solomon_islands),
   ("slb", Country.solomon_islands),
   ("somalia", Country.somalia),
   ("706", Country.somalia),
   ("so", Country.somalia),
   ("som", Country.somalia),
   ("southafrica", Country.south_africa),
   ("south_africa", Country.south_africa),
   ("710", Country.south_africa),
   ("za", Country.south_africa),
   ("zaf", Country.south_africa),
   ("southgeorgiaandthesouthsandwichislands", Country.south_georgia_and_the_south_sandwich_islands),
   ("south_georgia_and_the_south_sandwich_islands", Country.south_georgia_and_the_south_sandwich_islands),
   ("239", Country.south_georgia_and_the_south_sandwich_islands),
   ("gs", Country.south_georgia_and_the_south_sandwich_islands),
   ("sgs", Country.south_georgia_and_the_south_sandwich_islands),
   ("southgeorgia", Country.south_georgia_and_the_south_sandwich_islands),
   ("southsandwichislands", Country.south_georgia_and_the_south_sandwich_islands),
   ("southsudan", Country.south_sudan),
   ("south_sudan", Country.south_sudan),
   ("728", Country.south_sudan),
   ("ss", Country.south_sudan),
   ("ssd", Country.south_sudan),
   ("spain", Country.spain),
   ("724", Country.spain),
   ("es", Country.spain),
   ("esp", Country.spain),
   ("srilanka", Country.sri_lanka),
   ("sri_lanka", Country.sri_lanka),
   ("144", Country.sri_lanka),
   ("lk", Country.sri_lanka),
   ("lka", Country.sri_lanka),
   ("stateofpalestine", Country.state_of_palestine),
   ("state_of_palestine", Country.state_of_palestine),
   ("275", Country.state_of_palestine),
   ("ps", Country.state_of_palestine),
   ("pse", Country.state_of_palestine),
   ("palestine", Country.state_of_palestine),
   ("suriname", Country.suriname),
   ("740", Country.suriname),
   ("sr", Country.suriname),
   ("sur", Country.suriname),
   ("svalbardandjanmayen", Country.svalbard_and_jan_mayen),
   ("svalbard_and_jan_mayen", Country.svalbard_and_jan_mayen),
   ("744", Country.svalbard_and_jan_mayen),
   ("sj", Country.svalbard_and_jan_mayen),
   ("sjm", Country.svalbard_and_jan_mayen),
   ("sweden", Country.sweden),
   ("752", Country.sweden),
   ("se", Country.sweden),
   ("swe", Country.sweden),
   ("switzerland", Country.switzerland),
   ("756", Country.switzerland),
   ("ch", Country.switzerland),
   ("che", Country.switzerland),
   ("syrianarabrepublic", Country.syrian_arab_republic),
   ("syrian_arab_republic", Country.syrian_arab_republic),
   ("760", Country.syrian_arab_republic),
   ("sy", Country.syrian_arab_republic),
   ("syr", Country.syrian_arab_republic),
   ("taiwan,republicofchina", Country.taiwan),
   ("taiwan", Country.taiwan),
   ("158", Country.taiwan),
   ("tw", Country.taiwan),
   ("twn", Country.taiwan),
   ("tajikistan", Country.tajikistan),
   ("762", Country.tajikistan),
   ("tj", Country.tajikistan),
   ("tjk", Country.tajikistan),
   ("thailand", Country.thailand),
   ("764", Country.thailand),
   ("th", Country.thailand),
   ("tha", Country.thailand),
   ("thebahamas", Country.the_bahamas),
   ("the_bahamas", Country.the_bahamas),
   ("044", Country.the_bahamas),
   ("bs", Country.the_bahamas),
   ("bhs", Country.the_bahamas),
   ("bahamas", Country.the_bahamas),
   ("thecaymanislands", Country.the_cayman_islands),
   ("the_cayman_islands", Country.the_cayman_islands),
   ("136", Country.the_cayman_islands),
   ("ky", Country.the_cayman_islands),
   ("cym", Country.the_cayman_islands),
   ("caymanislands", Country.the_cayman_islands),
   ("thecentralafricanrepublic", Country.the_central_african_republic),
   ("the_central_african_republic", Country.the_central_african_republic),
   ("140", Country.the_central_african_republic),
   ("cf", Country.the_central_african_republic),
   ("caf", Country.the_central_african_republic),
   ("centralafricanrepublic", Country.the_central_african_republic),
   ("thecocoskeelingislands", Country.the_cocos_keeling_islands),
   ("the_cocos_keeling_islands", Country.the_cocos_keeling_islands),
   ("166", Country.the_cocos_keeling_islands),
   ("cc", Country.the_cocos_keeling_islands),
   ("cck", Country.the_cocos_keeling_islands),
   ("cocosislands", Country.the_cocos_keeling_islands),
   ("keelingislands", Country.the_cocos_keeling_islands),
   ("thecomoros", Country.the_comoros),
   ("the_comoros", Country.the_comoros),
   ("174", Country.the_comoros),
   ("km", Country.the_comoros),
   ("com", Country.the_comoros),
   ("comoros", Country.the_comoros),
   ("thecongo", Country.the_congo),
   ("the_congo", Country.the_congo),
   ("178", Country.the_congo),
   ("cg", Country.the_congo),
   ("cog", Country.the_congo),
   ("congo", Country.the_congo),
   ("thecookislands", Country.the_cook_islands),
   ("the_cook_islands", Country.the_cook_islands),
   ("184", Country.the_cook_islands),
   ("ck", Country.the_cook_islands),
   ("cok", Country.the_cook_islands),
   ("cookislands", Country.the_cook_islands),
   ("thedemocraticpeoplesrepublicofkorea", Country.the_democratic_peoples_republic_of_korea),
   ("the_democratic_peoples_republic_of_korea", Country.the_democratic_peoples_republic_of_korea),
   ("408", Country.the_democratic_peoples_republic_of_korea),
   ("kp", Country.the_democratic_peoples_republic_of_korea),
   ("prk", Country.the_democratic_peoples_republic_of_korea),
   ("northkorea", Country.the_democratic_peoples_republic_of_korea),
   ("democraticpeoplesrepublicofkorea", Country.the_democratic_peoples_republic_of_korea),
   ("thedemocraticrepublicofthecongo", Country.the_democratic_republic_of_the_congo),
   ("the_democratic_republic_of_the_congo", Country.the_democratic_republic_of_the_congo),
   ("180", Country.the_democratic_republic_of_the_congo),
   ("cd", Country.the_democratic_republic_of_the_congo),
   ("cod", Country.the_democratic_republic_of_the_congo),
   ("democraticrepublicofthecongo", Country.the_democratic_republic_of_the_congo),
   ("thedominicanrepublic", Country.the_dominican_republic),
   ("the_dominican_republic", Country.the_dominican_republic),
   ("214", Country.the_dominican_republic),
   ("do", Country.the_dominican_republic),
   ("dom", Country.the_dominican_republic),
   ("dominicanrepublic", Country.the_dominican_republic),
   ("thefalklandislandsmalvinas", Country.the_falkland_islands_malvinas),
   ("the_falkland_islands_malvinas", Country.the_falkland_islands_malvinas),
   ("238", Country.the_falkland_islands_malvinas),
   ("fk", Country.the_falkland_islands_malvinas),
   ("flk", Country.the_falkland_islands_malvinas),
   ("malvinas", Country.the_falkland_islands_malvinas),
   ("falklandislands", Country.the_falkland_islands_malvinas),
   ("thefaroeislands", Country.the_faroe_islands),
   ("the_faroe_islands", Country.the_faroe_islands),
   ("234", Country.the_faroe_islands),
   ("fo", Country.the_faroe_islands),
   ("fro", Country.the_faroe_islands),
   ("faroeislands", Country.the_faroe_islands),
   ("thefrenchsouthernterritories", Country.the_french_southern_territories),
   ("the_french_southern_territories", Country.the_french_southern_territories),
   ("260", Country.the_french_southern_territories),
   ("tf", Country.the_french_southern_territories),
   ("atf", Country.the_french_southern_territories),
   ("frenchsouthernterritories", Country.the_french_southern_territories),
   ("thegambia", Country.the_gambia),
   ("the_gambia", Country.the_gambia),
   ("270", Country.the_gambia),
   ("gm", Country.the_gambia),
   ("gmb", Country.the_gambia),
   ("gambia", Country.the_gambia),
   ("theholysee", Country.the_holy_see),
   ("the_holy_see", Country.the_holy_see),
   ("336", Country.the_holy_see),
   ("va", Country.the_holy_see),
   ("vat", Country.the_holy_see),
   ("holysee", Country.the_holy_see),
   ("thelaopeoplesdemocraticrepublic", Country.the_lao_peoples_democratic_republic),
   ("the_lao_peoples_democratic_republic", Country.the_lao_peoples_democratic_republic),
   ("418", Country.the_lao_peoples_democratic_republic),
   ("la", Country.the_lao_peoples_democratic_republic),
   ("lao", Country.the_lao_peoples_democratic_republic),
   ("laopeoplesdemocraticrepublic", Country.the_lao_peoples_democratic_republic),
   ("themarshallislands", Country.the_marshall_islands),
   ("the_marshall_islands", Country.the_marshall_islands),
   ("584", Country.the_marshall_islands),
   ("mh", Country.the_marshall_islands),
   ("mhl", Country.the_marshall_islands),
   ("marshallislands", Country.the_marshall_islands),
   ("thenetherlands", Country.the_netherlands),
   ("the_netherlands", Country.the_netherlands),
   ("528", Country.the_netherlands),
   ("nl", Country.the_netherlands),
   ("nld", Country.the_netherlands),
   ("netherlands", Country.the_netherlands),
   ("holland", Country.the_netherlands),
   ("theniger", Country.the_niger),
   ("the_niger", Country.the_niger),
   ("562", Country.the_niger),
   ("ne", Country.the_niger),
   ("ner", Country.the_niger),
   ("niger", Country.the_niger),
   ("thenorthernmarianaislands", Country.the_northern_mariana_islands),
   ("the_northern_mariana_islands", Country.the_northern_mariana_islands),
   ("580", Country.the_northern_mariana_islands),
   ("mp", Country.the_northern_mariana_islands),
   ("mnp", Country.the_northern_mariana_islands),
   ("northernmarianaislands", Country.the_northern_mariana_islands),
   ("thephilippines", Country.the_philippines),
   ("the_philippines", Country.the_philippines),
   ("608", Country.the_philippines),
   ("ph", Country.the_philippines),
   ("phl", Country.the_philippines),
   ("philippines", Country.the_philippines),
   ("therepublicofkorea", Country.the_republic_of_korea),
   ("the_republic_of_korea", Country.the_republic_of_korea),
   ("410", Country.the_republic_of_korea),
   ("kr", Country.the_republic_of_korea),
   ("kor", Country.the_republic_of_korea),
   ("southkorea", Country.the_republic_of_korea),
   ("republicofkorea", Country.the_republic_of_korea),
   ("therepublicofmoldova", Country.the_republic_of_moldova),
   ("the_republic_of_moldova", Country.the_republic_of_moldova),
   ("498", Country.the_republic_of_moldova),
   ("md", Country.the_republic_of_moldova),
   ("mda", Country.the_republic_of_moldova),
   ("moldova", Country.the_republic_of_moldova),
   ("republicofmoldova", Country.the_republic_of_moldova),
   ("therussianfederation", Country.the_russian_federation),
   ("the_russian_federation", Country.the_russian_federation),
   ("643", Country.the_russian_federation),
   ("ru", Country.the_russian_federation),
   ("rus", Country.the_russian_federation),
   ("russia", Country.the_russian_federation),
   ("russianfederation", Country.the_russian_federation),
   ("thesudan", Country.the_sudan),
   ("the_sudan", Country.the_sudan),
   ("729", Country.the_sudan),
   ("sd", Country.the_sudan),
   ("sdn", Country.the_sudan),
   ("sudan", Country.the_sudan),
   ("theturksandcaicosislands", Country.the_turks_and_caicos_islands),
   ("the_turks_and_caicos_islands", Country.the_turks_and_caicos_islands),
   ("796", Country.the_turks_and_caicos_islands),
   ("tc", Country.the_turks_and_caicos_islands),
   ("tca", Country.the_turks_and_caicos_islands),
   ("turksandcaicosislands", Country.the_turks_and_caicos_islands),
   ("theunitedarabemirates", Country.the_united_arab_emirates),
   ("the_united_arab_emirates", Country.the_united_arab_emirates),
   ("784", Country.the_united_arab_emirates),
   ("ae", Country.the_united_arab_emirates),
   ("are", Country.the_united_arab_emirates),
   ("unitedarabemirates", Country.the_united_arab_emirates),
   ("theunitedkingdomofgreatbritainandnorthernireland", Country.the_united_kingdom_of_great_britain_and_northern_ireland),
   ("the_united_kingdom_of_great_britain_and_northern_ireland", Country.the_united_kingdom_of_great_britain_and_northern_ireland),
   ("826", Country.the_united_kingdom_of_great_britain_and_northern_ireland),
   ("gb", Country.the_united_kingdom_of_great_britain_and_northern_ireland),
   ("gbr", Country.the_united_kingdom_of_great_britain_and_northern_ireland),
   ("england", Country.the_united_kingdom_of_great_britain_and_northern_ireland),
   ("scotland", Country.the_united_kingdom_of_great_britain_and_northern_ireland),
   ("greatbritain", Country.the_united_kingdom_of_great_britain_and_northern_ireland),
   ("unitedkingdom", Country.the_united_kingdom_of_great_britain_and_northern_ireland),
   ("northernireland", Country.the_united_kingdom_of_great_britain_and_northern_ireland),
   ("unitedkingdomofgreatbritain", Country.the_united_kingdom_of_great_britain_and_northern_ireland),
   ("unitedkingdomofgreatbritainandnorthernireland", Country.the_united_kingdom_of_great_britain_and_northern_ireland),
   ("theunitedstatesminoroutlyingislands", Country.the_united_states_minor_outlying_islands),
   ("the_united_states_minor_outlying_islands", Country.the_united_states_minor_outlying_islands),
   ("581", Country.the_united_states_minor_outlying_islands),
   ("um", Country.the_united_states_minor_outlying_islands),
   ("umi", Country.the_united_states_minor_outlying_islands),
   ("unitedstatesminoroutlyingislands", Country.the_united_states_minor_outlying_islands),
   ("theunitedstatesofamerica", Country.the_united_states_of_america),
   ("the_united_states_of_america", Country.the_united_states_of_america),
   ("840", Country.the_united_states_of_america),
   ("us", Country.the_united_states_of_america),
   ("usa", Country.the_united_states_of_america),
   ("america", Country.the_united_states_of_america),
   ("united states", Country.the_united_states_of_america),
   ("unitedstates", Country.the_united_states_of_america),
   ("unitedstatesofamerica", Country.the_united_states_of_america),
   ("united_states_of_america", Country.the_united_states_of_america),
   ("timorleste", Country.timor_leste),
   ("timor_leste", Country.timor_leste),
   ("626", Country.timor_leste),
   ("tl", Country.timor_leste),
   ("tls", Country.timor_leste),
   ("togo", Country.togo),
   ("768", Country.togo),
   ("tg", Country.togo),
   ("tgo", Country.togo),
   ("tokelau", Country.tokelau),
   ("772", Country.tokelau),
   ("tk", Country.tokelau),
   ("tkl", Country.tokelau),
   ("tonga", Country.tonga),
   ("776", Country.tonga),
   ("to", Country.tonga),
   ("ton", Country.tonga),
   ("trinidadandtobago", Country.trinidad_and_tobago),
   ("trinidad_and_tobago", Country.trinidad_and_tobago),
   ("780", Country.trinidad_and_tobago),
   ("tt", Country.trinidad_and_tobago),
   ("tto", Country.trinidad_and_tobago),
   ("trinidad", Country.trinidad_and_tobago),
   ("tobago", Country.trinidad_and_tobago),
   ("tunisia", Country.tunisia),
   ("788", Country.tunisia),
   ("tn", Country.tunisia),
   ("tun", Country.tunisia),
   ("turkey", Country.turkey),
   ("türkiye", Country.turkey),
   ("792", Country.turkey),
   ("tr", Country.turkey),
   ("tur", Country.turkey),
   ("turkmenistan", Country.turkmenistan),
   ("795", Country.turkmenistan),
   ("tm", Country.turkmenistan),
   ("tkm", Country.turkmenistan),
   ("tuvalu", Country.tuvalu),
   ("798", Country.tuvalu),
   ("tv", Country.tuvalu),
   ("tuv", Country.tuvalu),
   ("usvirginislands", Country.us_virgin_islands),
   ("us_virgin_islands", Country.us_virgin_islands),
   ("850", Country.us_virgin_islands),
   ("vi", Country.us_virgin_islands),
   ("vir", Country.us_virgin_islands),
   ("uganda", Country.uganda),
   ("800", Country.uganda),
   ("ug", Country.uganda),
   ("uga", Country.uganda),
   ("ukraine", Country.ukraine),
   ("804", Country.ukraine),
   ("ua", Country.ukraine),
   ("ukr", Country.ukraine),
   ("unitedrepublicoftanzania", Country.united_republic_of_tanzania),
   ("united_republic_of_tanzania", Country.united_republic_of_tanzania),
   ("834", Country.united_republic_of_tanzania),
   ("tz", Country.united_republic_of_tanzania),
   ("tza", Country.united_republic_of_tanzania),
   ("tanzania", Country.united_republic_of_tanzania),
   ("uruguay", Country.uruguay),
   ("858", Country.uruguay),
   ("uy", Country.uruguay),
   ("ury", Country.uruguay),
   ("uzbekistan", Country.uzbekistan),
   ("860", Country.uzbekistan),
   ("uz", Country.uzbekistan),
   ("uzb", Country.uzbekistan),
   ("vanuatu", Country.vanuatu),
   ("548", Country.vanuatu),
   ("vu", Country.vanuatu),
   ("vut", Country.vanuatu),
   ("vietnam", Country.vietnam),
   ("704", Country.vietnam),
   ("vn", Country.vietnam),
   ("vnm", Country.vietnam),
   ("wallisandfutuna", Country.wallis_and_futuna),
   ("wallis_and_futuna", Country.wallis_and_futuna),
   ("876", Country.wallis_and_futuna),
   ("wf", Country.wallis_and_futuna),
   ("wlf", Country.wallis_and_futuna),
   ("westernsahara", Country.western_sahara),
   ("western_sahara", Country.western_sahara),
   ("732", Country.western_sahara),
   ("eh", Country.western_sahara),
   ("esh", Country.western_sahara),
   ("yemen", Country.yemen),
   ("887", Country.yemen),
   ("ye", Country.yemen),
   ("yem", Country.yemen),
   ("zambia", Country.zambia),
   ("894", Country.zambia),
   ("zm", Country.zambia),
   ("zmb", Country.zambia),
   ("zimbabwe", Country.zimbabwe),
   ("716", Country.zimbabwe),
   ("zw", Country.zimbabwe),
   ("zwe", Country.zimbabwe)]

/-- `Country::from_value` (lib.rs): exact integer match, no transformation. -/
def Country.from_value (value : Nat) : Except String Country :=
  phfGet Country.VALUES value "invalid value"

/-- `Country::from_code` (lib.rs): lowercases the input, exact string match. -/
def Country.from_code (code : String) : Except String Country :=
  phfGet Country.CODES (rustLower code) "invalid code"

/-- `Country::from_alpha2` (lib.rs): case-insensitive two-letter code match. -/
def Country.from_alpha2 (alpha2 : String) : Except String Country :=
  phfGet Country.ALPHA2 (rustLower alpha2) "invalid alpha2"

/-- `Country::from_alpha3` (lib.rs): case-insensitive three-letter code match. -/
def Country.from_alpha3 (alpha3 : String) : Except String Country :=
  phfGet Country.ALPHA3 (rustLower alpha3) "invalid alpha3"

/-- `Country::from_alias` (lib.rs lines 2763-2851): case-insensitive match
against the alias map only. -/
def Country.from_alias (s : String) : Except String Country :=
  phfGet Country.ALIASES (rustLower s) "invalid alias"

/-- `Country::from_name` (lib.rs lines 2880-3139): case-insensitive match
against the normalized-name map only. -/
def Country.from_name (name : String) : Except String Country :=
  phfGet Country.NAMES (rustLower name) "unknown value"

/-- `<Country as FromStr>::from_str` (lib.rs lines 3142-4318): case-insensitive
match against the unified map. -/
def Country.from_str (code : String) : Except String Country :=
  phfGet Country.FROM_STR_CODES (rustLower code) "unknown value"

/-- `Serialize for Country` (lib.rs lines 198-205): a country serializes as its
`alpha2` string. -/
def serializeCountry (c : Country) : String := c.alpha2

/-- `Deserialize for Country` (lib.rs lines 207-231): read a string, resolve it
with `from_alpha2`, and turn a failed resolution into serde's typed
`invalid_value` error (the error text itself is produced by serde, outside this
repository; only its shape matters here). -/
def deserializeCountry (s : String) : Except String Country :=
  match Country.from_alpha2 s with
  | .ok c => .ok c
  | .error _ => .error ("invalid value: string " ++ s ++ ", expected a two letter string")

/-- Positional encoding of a char list as a natural number, used to make the
pairwise-distinctness checks over the registry cheap to evaluate.  (Soundness
of its use below does not depend on injectivity: distinct encodings imply
distinct strings.) -/
def encodeChars : List Char → Nat
  | [] => 0
  | c :: cs => 1 + c.toNat + 1114112 * encodeChars cs

/-- String version of `encodeChars`. -/
def encodeStr (s : String) : Nat := encodeChars s.data

/-- `allNe x l` is true when `x` differs from every element of `l`. -/
def allNe (x : Nat) : List Nat → Bool
  | [] => true
  | y :: ys => !(x == y) && allNe x ys

/-- `pairwiseNeNat l` is true when the elements of `l` are pairwise distinct. -/
def pairwiseNeNat : List Nat → Bool
  | [] => true
  | x :: xs => allNe x xs && pairwiseNeNat xs
/-! ## Helper lemmas -/

theorem zip_self_all_beq (l : List String) :
    ((l.zip l).all fun p => p.1 == p.2) = true := by
  induction l with
  | nil => rfl
  | cons x xs ih => simp [List.zip, ih]

theorem countryEq_value (a b : Country) (h : countryEq a b = true) : a.value = b.value := by
  simp only [countryEq, Bool.and_eq_true, beq_iff_eq] at h
  exact h.1.1.1.1.1.2

theorem countryEq_refl (a : Country) : countryEq a a = true := by
  simp [countryEq, zip_self_all_beq]

theorem phfGet_total {α : Type} [BEq α] (m : List (α × Country)) (k : α) (e : String) :
    (∃ c, phfGet m k e = .ok c) ∨ phfGet m k e = .error e := by
  unfold phfGet
  cases m.lookup k with
  | none => exact Or.inr rfl
  | some c => exact Or.inl ⟨c, rfl⟩

theorem allNe_correct {x : Nat} {l : List Nat} (h : allNe x l = true) : ∀ y ∈ l, x ≠ y := by
  induction l with
  | nil => intro y hy; cases hy
  | cons z zs ih =>
    simp only [allNe, Bool.and_eq_true, Bool.not_eq_true', beq_eq_false_iff_ne, ne_eq] at h
    intro y hy
    rcases List.mem_cons.mp hy with rfl | hy
    · exact h.1
    · exact ih h.2 y hy

theorem pairwiseNeNat_correct : ∀ {l : List Nat}, pairwiseNeNat l = true →
    l.Pairwise (· ≠ ·) := by
  intro l
  induction l with
  | nil => intro _; exact List.Pairwise.nil
  | cons x xs ih =>
    intro h
    simp only [pairwiseNeNat, Bool.and_eq_true] at h
    exact List.Pairwise.cons (allNe_correct h.1) (ih h.2)

theorem registry_pairwise_field {α : Type} (f : Country → α) (g : α → Nat)
    (h : pairwiseNeNat (Country.get_countries.map fun c => g (f c)) = true) :
    ∀ i j : Fin Country.get_countries.length, i ≠ j →
      f (Country.get_countries.get i) ≠ f (Country.get_countries.get j) := by
  have hp := pairwiseNeNat_correct h
  rw [List.pairwise_map] at hp
  have hp2 : List.Pairwise (fun a b : Country => f a ≠ f b) Country.get_countries :=
    hp.imp fun hab hfe => hab (congrArg g hfe)
  intro i j hne
  rcases lt_or_gt_of_ne hne with hlt | hlt
  · exact List.pairwise_iff_get.mp hp2 i j hlt
  · exact fun he => (List.pairwise_iff_get.mp hp2 j i hlt) he.symm

theorem registry_code_ne :
    ∀ i j : Fin Country.get_countries.length, i ≠ j →
      (Country.get_countries.get i).code ≠ (Country.get_countries.get j).code :=
  registry_pairwise_field (fun c => c.code) encodeStr (by rfl)

theorem registry_value_ne :
    ∀ i j : Fin Country.get_countries.length, i ≠ j →
      (Country.get_countries.get i).value ≠ (Country.get_countries.get j).value :=
  registry_pairwise_field (fun c => c.value) (fun n => n) (by rfl)

theorem registry_alpha2_ne :
    ∀ i j : Fin Country.get_countries.length, i ≠ j →
      (Country.get_countries.get i).alpha2 ≠ (Country.get_countries.get j).alpha2 :=
  registry_pairwise_field (fun c => c.alpha2) encodeStr (by rfl)

theorem registry_alpha3_ne :
    ∀ i j : Fin Country.get_countries.length, i ≠ j →
      (Country.get_countries.get i).alpha3 ≠ (Country.get_countries.get j).alpha3 :=
  registry_pairwise_field (fun c => c.alpha3) encodeStr (by rfl)

theorem registry_long_name_ne :
    ∀ i j : Fin Country.get_countries.length, i ≠ j →
      (Country.get_countries.get i).long_name ≠ (Country.get_countries.get j).long_name :=
  registry_pairwise_field (fun c => c.long_name) encodeStr (by rfl)

/-! ## Claim theorems -/

/-- Claim C1 (code_bug, evaluation at the failing input): the claim says
`PartialEq::eq` compares every field of `self` against the corresponding field
of `other`, so two `Country` values differing in `alpha2`, `alpha3` or
`long_name` are never equal.  The source compares those three fields of `self`
against `self`, so `Country::afghanistan()` compares equal to a value that
differs from it in all three fields. -/
theorem countryEq_compares_self_fields :
    countryEq Country.afghanistan corruptedAfghanistan = true ∧
    Country.afghanistan.alpha2 ≠ corruptedAfghanistan.alpha2 ∧
    Country.afghanistan.alpha3 ≠ corruptedAfghanistan.alpha3 ∧
    Country.afghanistan.long_name ≠ corruptedAfghanistan.long_name := by
  decide

/-- Claim C2 (code_bug, evaluation at the failing inputs): the claim says every
alias in a registry record's `aliases` table resolves through both
`Country::from_alias` and `Country::from_str`.  But `"Vatican"` and
`"VaticanCity"` (aliases of The Holy See) and `"Laos"` (alias of the Lao
People's Democratic Republic) are missing from both maps and return errors, and
`Country::from_str "Samoa"` — `"Samoa"` being the alias of American Samoa —
returns the record of (Western) Samoa instead. -/
theorem registry_alias_round_trip_fails :
    "Vatican" ∈ Country.the_holy_see.aliases.entries ∧
    Country.from_alias "Vatican" = Except.error "invalid alias" ∧
    Country.from_str "Vatican" = Except.error "unknown value" ∧
    "VaticanCity" ∈ Country.the_holy_see.aliases.entries ∧
    Country.from_alias "VaticanCity" = Except.error "invalid alias" ∧
    "Laos" ∈ Country.the_lao_peoples_democratic_republic.aliases.entries ∧
    Country.from_alias "Laos" = Except.error "invalid alias" ∧
    "Samoa" ∈ Country.american_samoa.aliases.entries ∧
    Country.from_str "Samoa" = Except.ok Country.samoa ∧
    Country.samoa ≠ Country.american_samoa := by
  decide

/-- Claim C3 (confirmed): over the 250 records of `Country::get_countries()`,
`PartialEq::eq` holds exactly between a record and itself: two lookups
returning the same registry entry compare equal, and records of two distinct
entries never compare equal.  (This holds despite the self-comparison slip in
`eq`, because `code` and `value` are still compared against `other` and are
unique across the registry.) -/
theorem registry_eq_iff_same_entry :
    ∀ i j : Fin Country.get_countries.length,
      countryEq (Country.get_countries.get i) (Country.get_countries.get j) = true ↔ i = j := by
  intro i j
  constructor
  · intro h
    by_contra hne
    exact registry_value_ne i j hne (countryEq_value _ _ h)
  · rintro rfl
    exact countryEq_refl _

/-- Claim C4 (corrected) — counterexample to the claim as stated: the not-found
errors are the fixed strings `"invalid value"`, `"invalid code"`, …; two
distinct non-matching inputs produce the identical error value, so the error
does not carry the original input supplied by the caller. -/
theorem resolver_error_not_carrying_input :
    Country.from_code "zzz" = Except.error "invalid code" ∧
    Country.from_code "yyy" = Except.error "invalid code" ∧
    ("zzz" : String) ≠ "yyy" ∧
    Country.from_alias "zzzznotacountry" = Except.error "invalid alias" := by
  decide

/-- Claim C4 (corrected, amended): every resolver is total — on every input it
returns either a resolved record or its typed constant not-found error
(`"invalid value"` / `"invalid code"` / `"invalid alpha2"` / `"invalid alpha3"`
/ `"invalid alias"` / `"unknown value"`); the error does not include the
caller's input. -/
theorem resolvers_total_constant_error :
    (∀ v : Nat, (∃ c, Country.from_value v = Except.ok c) ∨
      Country.from_value v = Except.error "invalid value") ∧
    (∀ s : String, (∃ c, Country.from_code s = Except.ok c) ∨
      Country.from_code s = Except.error "invalid code") ∧
    (∀ s : String, (∃ c, Country.from_alpha2 s = Except.ok c) ∨
      Country.from_alpha2 s = Except.error "invalid alpha2") ∧
    (∀ s : String, (∃ c, Country.from_alpha3 s = Except.ok c) ∨
      Country.from_alpha3 s = Except.error "invalid alpha3") ∧
    (∀ s : String, (∃ c, Country.from_alias s = Except.ok c) ∨
      Country.from_alias s = Except.error "invalid alias") ∧
    (∀ s : String, (∃ c, Country.from_name s = Except.ok c) ∨
      Country.from_name s = Except.error "unknown value") ∧
    (∀ s : String, (∃ c, Country.from_str s = Except.ok c) ∨
      Country.from_str s = Except.error "unknown value") :=
  ⟨fun _ => phfGet_total _ _ _, fun _ => phfGet_total _ _ _, fun _ => phfGet_total _ _ _,
   fun _ => phfGet_total _ _ _, fun _ => phfGet_total _ _ _, fun _ => phfGet_total _ _ _,
   fun _ => phfGet_total _ _ _⟩

/-- Claim C5 (corrected) — counterexample to the claim as stated: the array of
`Country::get_countries()` is not sorted in ascending byte/codepoint order of
`long_name`: the record at index 234 is `"Türkiye"` (`ü` is U+00FC, above every
ASCII letter) and the record at index 235 is `"Turkmenistan"`, so `Ord::cmp`
puts the pair in descending order. -/
theorem get_countries_not_sorted :
    (Country.get_countries.get ⟨234, by decide⟩).long_name = "Türkiye" ∧
    (Country.get_countries.get ⟨235, by decide⟩).long_name = "Turkmenistan" ∧
    countryCmp (Country.get_countries.get ⟨234, by decide⟩)
      (Country.get_countries.get ⟨235, by decide⟩) = Ordering.gt ∧
    ¬ List.Pairwise (fun a b : Country => rustStrCmp a.long_name b.long_name = Ordering.lt)
        Country.get_countries := by
  refine ⟨by decide, by decide, by decide, fun h => ?_⟩
  have h2 := List.pairwise_iff_get.mp h ⟨234, by decide⟩ ⟨235, by decide⟩ (by decide)
  exact absurd h2 (by decide)

/-- Claim C5 (corrected, amended): every adjacent pair of the array returned by
`Country::get_countries()` is strictly ascending in the byte/codepoint order of
`long_name` — which is the total order implemented by `Ord` for `Country` —
except the single pair `("Türkiye", "Turkmenistan")` at indices 234–235. -/
theorem get_countries_sorted_except_turkiye :
    (∀ p ∈ Country.get_countries.zip Country.get_countries.tail,
      rustStrCmp p.1.long_name p.2.long_name = Ordering.lt ∨
        (p.1.long_name = "Türkiye" ∧ p.2.long_name = "Turkmenistan")) ∧
    (∀ a b : Country, countryCmp a b = rustStrCmp a.long_name b.long_name) := by
  refine ⟨by decide, fun a b => rfl⟩

/-- Witness for `get_countries_sorted_except_turkiye` at the first adjacent
pair of the registry. -/
theorem get_countries_sorted_except_turkiye_witness :
    rustStrCmp Country.afghanistan.long_name Country.aland_islands.long_name = Ordering.lt ∨
      (Country.afghanistan.long_name = "Türkiye" ∧
        Country.aland_islands.long_name = "Turkmenistan") :=
  get_countries_sorted_except_turkiye.1 (Country.afghanistan, Country.aland_islands) (by decide)

/-- Claim C6 (confirmed): among the 250 records of `Country::get_countries()`,
no two distinct records share a `code`, a `value`, an `alpha2`, an `alpha3` or
a `long_name`. -/
theorem registry_keys_unique :
    ∀ i j : Fin Country.get_countries.length, i ≠ j →
      (Country.get_countries.get i).code ≠ (Country.get_countries.get j).code ∧
      (Country.get_countries.get i).value ≠ (Country.get_countries.get j).value ∧
      (Country.get_countries.get i).alpha2 ≠ (Country.get_countries.get j).alpha2 ∧
      (Country.get_countries.get i).alpha3 ≠ (Country.get_countries.get j).alpha3 ∧
      (Country.get_countries.get i).long_name ≠ (Country.get_countries.get j).long_name :=
  fun i j hne =>
    ⟨registry_code_ne i j hne, registry_value_ne i j hne, registry_alpha2_ne i j hne,
     registry_alpha3_ne i j hne, registry_long_name_ne i j hne⟩

/-- Witness for `registry_keys_unique` at the first two registry entries. -/
theorem registry_keys_unique_witness :
    (Country.get_countries.get ⟨0, by decide⟩).code ≠
      (Country.get_countries.get ⟨1, by decide⟩).code ∧
    (Country.get_countries.get ⟨0, by decide⟩).value ≠
      (Country.get_countries.get ⟨1, by decide⟩).value ∧
    (Country.get_countries.get ⟨0, by decide⟩).alpha2 ≠
      (Country.get_countries.get ⟨1, by decide⟩).alpha2 ∧
    (Country.get_countries.get ⟨0, by decide⟩).alpha3 ≠
      (Country.get_countries.get ⟨1, by decide⟩).alpha3 ∧
    (Country.get_countries.get ⟨0, by decide⟩).long_name ≠
      (Country.get_countries.get ⟨1, by decide⟩).long_name :=
  registry_keys_unique ⟨0, by decide⟩ ⟨1, by decide⟩ (by decide)

/-- Claim C7 (confirmed): `from_code "004"` resolves to the record with
`alpha2 = "AF"`, `from_code "4"` and `from_code "04"` fail (exact, non-lenient
string match requiring leading zeros), and `from_value 4` resolves to the same
record. -/
theorem from_code_exact_padding :
    Country.from_code "004" = Except.ok Country.afghanistan ∧
    Country.afghanistan.alpha2 = "AF" ∧
    Country.from_code "4" = Except.error "invalid code" ∧
    Country.from_code "04" = Except.error "invalid code" ∧
    Country.from_value 4 = Except.ok Country.afghanistan := by
  decide

/-- Claim C8 (confirmed): serializing any registry record produces exactly its
`alpha2` string, deserializing that string yields `Ok` of a record equal to the
original, and any string that does not resolve via `from_alpha2` deserializes
to a typed decode error rather than a panic or a default record. -/
theorem serde_round_trip :
    (Country.get_countries.all fun r =>
        serializeCountry r == r.alpha2 &&
        (deserializeCountry (serializeCountry r) == Except.ok r)) = true ∧
    ∀ s e, Country.from_alpha2 s = Except.error e →
      deserializeCountry s =
        Except.error ("invalid value: string " ++ s ++ ", expected a two letter string") := by
  constructor
  · decide
  · intro s e he
    unfold deserializeCountry
    rw [he]

/-- Witness for `serde_round_trip` at the unassigned code `"zz"`. -/
theorem serde_round_trip_witness :
    deserializeCountry "zz" =
      Except.error ("invalid value: string " ++ "zz" ++ ", expected a two letter string") :=
  serde_round_trip.2 "zz" "invalid alpha2" (by decide)

/-- Claim C9 (confirmed): the aliases table of
`Country::heard_island_and_mc_donald_islands()` lists `"McDonaldIslands"`, but
`LookupTable::contains` returns `false` for it and for every case variant of
it, because the generated lowered match pattern is `"mcDonaldislands"` — it
contains an uppercase letter, and a lowercased input never equals it.  A case
variant of a string is one with the same letters up to case, i.e. one with the
same lowercasing. -/
theorem heard_island_alias_contains_false :
    "McDonaldIslands" ∈ Country.heard_island_and_mc_donald_islands.aliases.entries ∧
    "mcDonaldislands" ∈ Country.heard_island_and_mc_donald_islands.aliases.lowered ∧
    Country.heard_island_and_mc_donald_islands.aliases.contains "McDonaldIslands" = false ∧
    ∀ s : String, rustLower s = rustLower "McDonaldIslands" →
      Country.heard_island_and_mc_donald_islands.aliases.contains s = false := by
  refine ⟨by decide, by decide, by decide, fun s hs => ?_⟩
  show (Country.heard_island_and_mc_donald_islands.aliases.lowered.contains (rustLower s)) = false
  rw [hs]
  decide

/-- Witness for `heard_island_alias_contains_false` at the all-uppercase case
variant. -/
theorem heard_island_alias_contains_false_witness :
    Country.heard_island_and_mc_donald_islands.aliases.contains "MCDONALDISLANDS" = false :=
  heard_island_alias_contains_false.2.2.2 "MCDONALDISLANDS" (by decide)

/-- Claim C10 (confirmed): the unified resolver `Country::from_str` also
accepts underscore-separated snake_case country names, which `from_name`
rejects: `"aland_islands"` and `"american_samoa"` resolve through `from_str`
but not through `from_name`. -/
theorem from_str_accepts_snake_case :
    Country.from_str "aland_islands" = Except.ok Country.aland_islands ∧
    Country.from_name "aland_islands" = Except.error "unknown value" ∧
    Country.from_str "american_samoa" = Except.ok Country.american_samoa ∧
    Country.from_name "american_samoa" = Except.error "unknown value" := by
  decide

end Celes
